import Mathlib

set_option maxHeartbeats 1000000
set_option maxRecDepth 4000
set_option linter.unusedVariables false

/-!  Verification development for the R-TCP BBRv1 congestion-control module
     (src/rtcp_bbr.c, Linux 5.4 kernel module "rtcp_bbr").

     The definitions below are a shallow embedding of the C source.  Unsigned
     machine integers (u8/u32/u64) are modelled as `Nat`, with an explicit
     `% 2^32` / `% 2^64` at the operations where the C arithmetic can wrap
     (subtraction of unsigned counters, truncating assignments, multiplies
     that can exceed the word size); signed quantities that can actually be
     negative in the source (rate-sample fields) are modelled as `Int`.
     Kernel collaborator state read by the module (tcp_sock scalars, socket
     fields, the jiffies clock, the prandom source) is an explicit read-only
     environment record; fields the module writes (sk_pacing_rate, snd_cwnd,
     snd_ssthresh, tp->app_limited) live in the mutable state record.  The
     detector block `struct PMODRL` is an `Option` (it is kmalloc-ed at init
     and may be absent); places where the C code dereferences the pointer
     without a NULL check are modelled as an `Option.none` result (crash). -/

namespace RTcp

/-- Wrapping subtraction of w-bit unsigned integers (C unsigned arithmetic);
    faithful for `a < 2^w`. -/
def wsub (w a b : Nat) : Nat := (a + (2 ^ w - b % 2 ^ w)) % 2 ^ w

/-- u32 subtraction, as in C `a - b` on `u32` operands. -/
def u32sub (a b : Nat) : Nat := wsub 32 a b

/-- u64 subtraction, as in C `a - b` on `u64` operands. -/
def u64sub (a b : Nat) : Nat := wsub 64 a b

/-- Linux `before(seq1, seq2)`: `(s32)(seq1 - seq2) < 0`. -/
def seqBefore (a b : Nat) : Bool := decide (2 ^ 31 ≤ u32sub a b)

/-- Linux `after(seq2, seq1) = before(seq1, seq2)`. -/
def seqAfter (a b : Nat) : Bool := seqBefore b a

/-- C `(s32)t < 1` applied to an unsigned value `t` (low 32 bits reinterpreted
    as signed): true iff the low word is zero or has the sign bit set. -/
def s32lt1 (t : Nat) : Bool := decide (t % 2 ^ 32 = 0 ∨ 2 ^ 31 ≤ t % 2 ^ 32)

/-- Kernel `abs()` applied to a `u64`: the value is reinterpreted as `s64`
    and its absolute value taken, then cast back to `u64`. -/
def s64abs (x : Nat) : Nat := if x % 2 ^ 64 < 2 ^ 63 then x % 2 ^ 64 else 2 ^ 64 - x % 2 ^ 64

/-- Conversion of a (possibly negative) `Int` to `u64` two's-complement. -/
def u64ofInt (x : Int) : Nat := (x % (2 ^ 64 : Int)).toNat

/-- Kernel HZ for the target kernel (5.4, HZ=250); only enters through the
    jiffies conversion helpers and does not affect any verified claim. -/
def HZ : Nat := 250

/-- Kernel `jiffies_to_usecs` (returns `unsigned int`). -/
def jiffies_to_usecs (j : Nat) : Nat := (j * (1000000 / HZ)) % 2 ^ 32

/-- Kernel `msecs_to_jiffies` for HZ dividing 1000. -/
def msecs_to_jiffies (m : Nat) : Nat := (m + 1000 / HZ - 1) / (1000 / HZ)

def USEC_PER_SEC : Nat := 1000000
def USEC_PER_MSEC : Nat := 1000
def NSEC_PER_USEC : Nat := 1000
def TCP_INIT_CWND : Nat := 10
def GSO_MAX_SIZE : Nat := 65536

/-- Kernel `MAX_TCP_HEADER` (config dependent; its value does not affect any
    verified claim, it only enters the TSO segment budget). -/
def MAX_TCP_HEADER : Nat := 320

/-- Linux congestion-avoidance states `TCP_CA_Open..TCP_CA_Loss`. -/
def TCP_CA_Open : Nat := 0
def TCP_CA_Recovery : Nat := 3
def TCP_CA_Loss : Nat := 4

/-- Scale constants, src/rtcp_bbr.c lines 85-106. -/
def BW_SCALE : Nat := 24
def BW_UNIT : Nat := 2 ^ BW_SCALE
def BBR_SCALE : Nat := 8
def BBR_UNIT : Nat := 2 ^ BBR_SCALE
def BASED_SCALE : Nat := 8
def BASED_UNIT : Nat := 2 ^ BASED_SCALE

def MAX_STR_LEN : Nat := 5000
def STORE_INTERVAL : Nat := 400

/-- The percent vector values (src line 110), indexed 0..8. -/
def percent_vals : Nat → Nat
  | 0 => BW_UNIT
  | 1 => BW_UNIT * 7 / 8
  | 2 => BW_UNIT * 6 / 8
  | 3 => BW_UNIT * 5 / 8
  | 4 => BW_UNIT * 4 / 8
  | 5 => BW_UNIT * 3 / 8
  | 6 => BW_UNIT * 2 / 8
  | 7 => BW_UNIT * 1 / 8
  | _ => 0

def percent_arr_num : Nat := 9

/-- The percent vector as a function on the grid index (src line 110). -/
def percent_arr (i : Fin 9) : Nat := percent_vals i.val

/-- Detector thresholds (src lines 112-114). -/
def loss_thresh : Nat := 50
def abrupt_decrease_thresh : Nat := 150

/-- BBR constants (src lines 221-293). -/
def CYCLE_LEN : Nat := 8
def bbr_bw_rtts : Nat := CYCLE_LEN + 2
def bbr_min_rtt_win_sec : Nat := 10
def bbr_probe_rtt_mode_ms : Nat := 200
def bbr_min_tso_rate : Nat := 1200000
def bbr_pacing_margin_percent : Nat := 1
def bbr_high_gain : Nat := BBR_UNIT * 2885 / 1000 + 1
def bbr_drain_gain : Nat := BBR_UNIT * 1000 / 2885
def bbr_cwnd_gain : Nat := BBR_UNIT * 2

/-- PROBE_BW pacing-gain cycle (src lines 253-258). -/
def bbr_pacing_gain_vals : Nat → Nat
  | 0 => BBR_UNIT * 5 / 4
  | 1 => BBR_UNIT * 3 / 4
  | _ => BBR_UNIT

def bbr_cycle_rand : Nat := 7
def bbr_cwnd_min_target : Nat := 4
def bbr_full_bw_thresh : Nat := BBR_UNIT * 5 / 4
def bbr_full_bw_cnt : Nat := 3
def bbr_lt_intvl_min_rtts : Nat := 4
def bbr_lt_loss_thresh : Nat := 50
def bbr_lt_bw_ratio_c : Nat := BBR_UNIT / 8
def bbr_lt_bw_diff_c : Nat := 4000 / 8
def bbr_lt_bw_max_rtts : Nat := 48
def bbr_extra_acked_gain : Nat := BBR_UNIT
def bbr_extra_acked_win_rtts : Nat := 5
def bbr_ack_epoch_acked_reset_thresh : Nat := 2 ^ 20
def bbr_extra_acked_max_us : Nat := 100 * 1000

/-- The four BBR operating modes (src enum bbr_mode, lines 92-97). -/
inductive BbrMode where
  | startup
  | drain
  | probeBw
  | probeRtt
deriving DecidableEq, Repr

/-- Module parameters (src lines 115-124); process-wide tunables. -/
structure Cfg where
  probe_interval : Nat
  probe_per : Nat
  optimize_flag : Nat
  high_loss_disclassify : Nat
  monitor_peroid : Nat
  use_goodput : Nat
  exclude_RTO : Nat
  exclude_rwnd : Nat
  exclude_applimited : Nat
deriving DecidableEq, Repr

/-- The default parameter values from the source. -/
def defaultCfg : Cfg :=
  { probe_interval := 20
    probe_per := 24
    optimize_flag := 1
    high_loss_disclassify := 2
    monitor_peroid := 3
    use_goodput := 1
    exclude_RTO := 0
    exclude_rwnd := 0
    exclude_applimited := 0 }

/-- Read-only kernel collaborator state consumed during one invocation:
    tcp_sock scalars, socket fields, the jiffies clock, the random source.
    Boolean fields summarize comparisons of socket-internal quantities the
    module only reads (sk_wmem_alloc_get(sk) < SKB_TRUESIZE(1); chrono type). -/
structure Env where
  jiffies : Nat
  tp_delivered : Nat
  tp_lost : Nat
  tp_snd_una : Nat
  tp_mss_cache : Nat
  tp_srtt_us : Nat
  tp_bytes_acked : Nat
  tp_delivered_mstamp : Nat
  tp_tcp_mstamp : Nat
  tp_tcp_clock_cache : Nat
  tp_tcp_wstamp_ns : Nat
  tp_packets_in_flight : Nat
  tp_snd_cwnd_clamp : Nat
  tp_write_seq : Nat
  tp_snd_nxt : Nat
  tp_lost_out : Nat
  tp_retrans_out : Nat
  tp_chrono_rwnd_limited : Bool
  icsk_ca_state : Nat
  sk_max_pacing_rate : Nat
  sk_pacing_shift : Nat
  sk_wmem_small : Bool
  rand : Nat
deriving DecidableEq, Repr

/-- One rate sample (struct rate_sample fields the module reads). -/
structure RateSample where
  delivered : Int
  prior_delivered : Nat
  losses : Nat
  acked_sacked : Nat
  is_app_limited : Bool
  is_ack_delayed : Bool
  interval_us : Int
  rtt_us : Int
  prior_in_flight : Nat
deriving DecidableEq, Repr

/-- The windowed max/min filter structure (linux/lib/win_minmax.h).
    Modelled from the spec: the repository uses the kernel library
    lib/win_minmax.c which is not included under src/; this is the standard
    three-sample rolling-extremum structure the spec describes as
    "windowed-max ... over a bounded horizon". -/
structure Minmax where
  t0 : Nat
  v0 : Nat
  t1 : Nat
  v1 : Nat
  t2 : Nat
  v2 : Nat
deriving DecidableEq, Repr

/-- Modelled from the spec: kernel `minmax_get` (lib/win_minmax.h). -/
def minmax_get (m : Minmax) : Nat := m.v0

/-- Modelled from the spec: kernel `minmax_reset` (lib/win_minmax.h). -/
def minmax_reset (t meas : Nat) : Minmax :=
  { t0 := t, v0 := meas, t1 := t, v1 := meas, t2 := t, v2 := meas }

/-- Modelled from the spec: kernel `minmax_subwin_update` (lib/win_minmax.c). -/
def minmax_subwin_update (m : Minmax) (win t meas : Nat) : Minmax :=
  let dt := u32sub t m.t0
  if win < dt then
    let m1 : Minmax := { t0 := m.t1, v0 := m.v1, t1 := m.t2, v1 := m.v2, t2 := t, v2 := meas }
    if win < u32sub t m1.t0 then
      { t0 := m1.t1, v0 := m1.v1, t1 := m1.t2, v1 := m1.v2, t2 := t, v2 := meas }
    else m1
  else if m.t1 = m.t0 ∧ win / 4 < dt then
    { m with t1 := t, v1 := meas, t2 := t, v2 := meas }
  else if m.t2 = m.t1 ∧ win / 2 < dt then
    { m with t2 := t, v2 := meas }
  else m

/-- Modelled from the spec: kernel `minmax_running_max` (lib/win_minmax.c). -/
def minmax_running_max (m : Minmax) (win t meas : Nat) : Minmax :=
  if m.v0 ≤ meas ∨ win < u32sub t m.t2 then minmax_reset t meas
  else
    let m := if m.v1 ≤ meas then { m with t1 := t, v1 := meas }
             else if m.v2 ≤ meas then { m with t2 := t, v2 := meas }
             else m
    minmax_subwin_update m win t meas

/-- The detector block `struct PMODRL` (src lines 126-174).  u64 arrays are
    functions on the index; the log buffer is modelled only by its presence. -/
structure Pmodrl where
  B_arr : Fin 9 → Nat
  R_arr : Fin 9 → Nat
  best_index : Nat
  classify : Nat
  classify_time_us : Nat
  high_loss_flag : Nat
  loss_start_time_us : Nat
  before_loss_delivered : Nat
  before_loss_time_us : Nat
  before_loss_lost : Nat
  bbr_start_us : Nat
  bef_empty_goodput : Nat
  nominator : Nat
  latest_ack_us : Nat
  lastest_ack_loss : Nat
  detected_bytes_acked : Nat
  detected_time : Nat
  disable_flag : Nat
  mem_B : Nat
  mem_R : Nat
  probe_rtt_flag : Nat
  upper_bound : Nat
  round_count : Nat
  round_count_no : Nat
  next_rtt_delivered : Nat
  round_start : Bool
  transfer_start_deliverd : Nat
  transfer_start_lost : Nat
  reset_ltbw_flag : Nat
  buffer : Bool
  store_interval : Nat
  acc_rto_dur : Nat
  cycle_mstamp : Nat
  dis_loss_start : Nat
  dis_deliver_start : Nat
  dis_enable_flag : Nat

/-- The all-zero PMODRL (result of `memset(pm, 0, sizeof ...)`). -/
def zeroPmodrl : Pmodrl :=
  { B_arr := fun _ => 0
    R_arr := fun _ => 0
    best_index := 0
    classify := 0
    classify_time_us := 0
    high_loss_flag := 0
    loss_start_time_us := 0
    before_loss_delivered := 0
    before_loss_time_us := 0
    before_loss_lost := 0
    bbr_start_us := 0
    bef_empty_goodput := 0
    nominator := 0
    latest_ack_us := 0
    lastest_ack_loss := 0
    detected_bytes_acked := 0
    detected_time := 0
    disable_flag := 0
    mem_B := 0
    mem_R := 0
    probe_rtt_flag := 0
    upper_bound := 0
    round_count := 0
    round_count_no := 0
    next_rtt_delivered := 0
    round_start := false
    transfer_start_deliverd := 0
    transfer_start_lost := 0
    reset_ltbw_flag := 0
    buffer := false
    store_interval := 0
    acc_rto_dur := 0
    cycle_mstamp := 0
    dis_loss_start := 0
    dis_deliver_start := 0
    dis_enable_flag := 0 }

/-- Helper projecting the B array at a `u8` index value (array access in C). -/
def getB (pm : Pmodrl) (n : Nat) : Nat := pm.B_arr ⟨n % 9, Nat.mod_lt _ (by omega)⟩

/-- Helper projecting the R array at a `u8` index value (array access in C). -/
def getR (pm : Pmodrl) (n : Nat) : Nat := pm.R_arr ⟨n % 9, Nat.mod_lt _ (by omega)⟩

/-- The per-connection mutable state: `struct bbr` (src lines 178-219)
    together with the socket/tcp fields the module writes. -/
structure St where
  min_rtt_us : Nat
  min_rtt_stamp : Nat
  probe_rtt_done_stamp : Nat
  bw : Minmax
  rtt_cnt : Nat
  next_rtt_delivered : Nat
  mode : BbrMode
  prev_ca_state : Nat
  packet_conservation : Bool
  round_start : Bool
  idle_restart : Bool
  probe_rtt_round_done : Bool
  lt_is_sampling : Bool
  lt_rtt_cnt : Nat
  lt_use_bw : Bool
  lt_bw : Nat
  lt_last_delivered : Nat
  lt_last_stamp : Nat
  lt_last_lost : Nat
  pacing_gain : Nat
  cwnd_gain : Nat
  full_bw_reached : Bool
  full_bw_cnt : Nat
  cycle_idx : Nat
  has_seen_rtt : Bool
  prior_cwnd : Nat
  full_bw : Nat
  ack_epoch_mstamp : Nat
  extra_acked0 : Nat
  extra_acked1 : Nat
  ack_epoch_acked : Nat
  extra_acked_win_rtts : Nat
  extra_acked_win_idx : Nat
  pm : Option Pmodrl
  sk_pacing_rate : Nat
  snd_cwnd : Nat
  snd_ssthresh : Nat
  app_limited : Nat

/-- src lines 298-303: `bbr_full_bw_reached`. -/
def bbr_full_bw_reached (s : St) : Bool := s.full_bw_reached

/-- src lines 306-311: `bbr_max_bw`. -/
def bbr_max_bw (s : St) : Nat := minmax_get s.bw

/-- src lines 314-319: `bbr_bw`. -/
def bbr_bw (s : St) : Nat := if s.lt_use_bw then s.lt_bw else bbr_max_bw s

/-- src lines 324-329: `bbr_extra_acked`. -/
def bbr_extra_acked (s : St) : Nat := max s.extra_acked0 s.extra_acked1

/-- src lines 335-344: `bbr_rate_bytes_per_sec`; u64 arithmetic chain
    `rate *= mss; rate *= gain; rate >>= 8; rate *= 990000; rate >>= 24`. -/
def bbr_rate_bytes_per_sec (e : Env) (rate : Nat) (gain : Nat) : Nat :=
  let r := (rate * e.tp_mss_cache * gain) % 2 ^ 64
  let r := r >>> BBR_SCALE
  let r := (r * (USEC_PER_SEC / 100 * (100 - bbr_pacing_margin_percent))) % 2 ^ 64
  r >>> BW_SCALE

/-- src lines 347-354: `bbr_bw_to_pacing_rate`. -/
def bbr_bw_to_pacing_rate (e : Env) (bw : Nat) (gain : Nat) : Nat :=
  min (bbr_rate_bytes_per_sec e bw gain) e.sk_max_pacing_rate

/-- src lines 357-373: `bbr_init_pacing_rate_from_rtt`; writes has_seen_rtt
    and sk_pacing_rate. -/
def bbr_init_pacing_rate_from_rtt (e : Env) (s : St) : St :=
  let rtt_us := if e.tp_srtt_us ≠ 0 then max (e.tp_srtt_us >>> 3) 1 else USEC_PER_MSEC
  let s := if e.tp_srtt_us ≠ 0 then { s with has_seen_rtt := true } else s
  let bw := s.snd_cwnd * BW_UNIT / rtt_us
  { s with sk_pacing_rate := bbr_bw_to_pacing_rate e bw bbr_high_gain }

/-- src lines 376-388: `bbr_bw_to_pacing_rate_pmodrl`; the gain is inflated by
    `probe_per/20` iff the detector is present, classified, and the probe
    nominator is non-zero. -/
def bbr_bw_to_pacing_rate_pmodrl (cfg : Cfg) (e : Env) (s : St)
    (bw gain nominator : Nat) : Nat :=
  let gain :=
    match s.pm with
    | some pm => if pm.classify = 1 ∧ nominator ≠ 0 then gain * cfg.probe_per / 20 else gain
    | none => gain
  min (bbr_rate_bytes_per_sec e bw gain) e.sk_max_pacing_rate

/-- src lines 397-405: the cap logic of `bbr_set_pacing_rate`: starting from
    the BBR rate, substitute the detector cap when it is lower; returns the
    local variable `rate` together with the local `flag`. -/
def bbr_capped_rate (cfg : Cfg) (e : Env) (s : St) (bw gain : Nat) : Nat × Bool :=
  let rate := bbr_bw_to_pacing_rate e bw gain
  match s.pm with
  | some pm =>
    if pm.classify = 1 ∧ pm.upper_bound = 1 then
      let pmodrl_rate :=
        bbr_bw_to_pacing_rate_pmodrl cfg e s (getR pm pm.best_index) BBR_UNIT pm.nominator
      if pmodrl_rate < rate ∧ cfg.optimize_flag ≠ 0 then (pmodrl_rate, true) else (rate, false)
    else (rate, false)
  | none => (rate, false)

/-- src lines 407-413: the store stage of `bbr_set_pacing_rate` (the two
    conditional assignments of `rate` into `sk->sk_pacing_rate`), applied to
    the state after the optional early-RTT initialization. -/
def pacing_store2 (cfg : Cfg) (rate : Nat) (flag : Bool) (t : St) : St :=
  let u := if t.full_bw_reached ∨ t.sk_pacing_rate < rate then
             { t with sk_pacing_rate := rate } else t
  match t.pm with
  | some pm =>
    if pm.classify = 1 ∧ flag ∧ cfg.optimize_flag ≠ 0 then { u with sk_pacing_rate := rate }
    else u
  | none => u

/-- src lines 391-414: `bbr_set_pacing_rate`. -/
def bbr_set_pacing_rate (cfg : Cfg) (e : Env) (bw gain : Nat) (s : St) : St :=
  let rf := bbr_capped_rate cfg e s bw gain
  let s := if ¬s.has_seen_rtt ∧ e.tp_srtt_us ≠ 0 then bbr_init_pacing_rate_from_rtt e s else s
  pacing_store2 cfg rf.1 rf.2 s

/-- src lines 417-420: `bbr_min_tso_segs`. -/
def bbr_min_tso_segs (s : St) : Nat :=
  if s.sk_pacing_rate < bbr_min_tso_rate >>> 3 then 1 else 2

/-- src lines 446-459: `bbr_tso_segs_goal`. -/
def bbr_tso_segs_goal (e : Env) (s : St) : Nat :=
  let bytes := min (s.sk_pacing_rate >>> e.sk_pacing_shift) (GSO_MAX_SIZE - 1 - MAX_TCP_HEADER)
  let segs := max (bytes / e.tp_mss_cache) (bbr_min_tso_segs s)
  min segs 0x7F

/-- src lines 462-471: `bbr_save_cwnd`. -/
def bbr_save_cwnd (s : St) : St :=
  if s.prev_ca_state < TCP_CA_Recovery ∧ s.mode ≠ BbrMode.probeRtt then
    { s with prior_cwnd := s.snd_cwnd }
  else
    { s with prior_cwnd := max s.prior_cwnd s.snd_cwnd }

/-- src lines 532-555: `bbr_bdp`; result is assigned to a u32. -/
def bbr_bdp (s : St) (bw gain : Nat) : Nat :=
  if s.min_rtt_us = 2 ^ 32 - 1 then TCP_INIT_CWND
  else
    let w := bw * s.min_rtt_us
    ((((w * gain) % 2 ^ 64) >>> BBR_SCALE + BW_UNIT - 1) / BW_UNIT) % 2 ^ 32

/-- src lines 567-582: `bbr_quantization_budget`. -/
def bbr_quantization_budget (e : Env) (s : St) (cwnd : Nat) : Nat :=
  let cwnd := cwnd + 3 * bbr_tso_segs_goal e s
  let cwnd := (cwnd + 1) / 2 * 2
  if s.mode = BbrMode.probeBw ∧ s.cycle_idx = 0 then cwnd + 2 else cwnd

/-- src lines 585-593: `bbr_inflight`. -/
def bbr_inflight (e : Env) (s : St) (bw gain : Nat) : Nat :=
  bbr_quantization_budget e s (bbr_bdp s bw gain)

/-- src lines 609-626: `bbr_packets_in_net_at_edt`. -/
def bbr_packets_in_net_at_edt (e : Env) (s : St) (inflight_now : Nat) : Nat :=
  let now_ns := e.tp_tcp_clock_cache
  let edt_ns := max e.tp_tcp_wstamp_ns now_ns
  let interval_us := (edt_ns - now_ns) / NSEC_PER_USEC
  let interval_delivered := ((bbr_bw s * interval_us) >>> BW_SCALE) % 2 ^ 32
  let inflight_at_edt :=
    if BBR_UNIT < s.pacing_gain then inflight_now + bbr_tso_segs_goal e s else inflight_now
  if inflight_at_edt ≤ interval_delivered then 0 else inflight_at_edt - interval_delivered

/-- src lines 629-642: `bbr_ack_aggregation_cwnd`. -/
def bbr_ack_aggregation_cwnd (s : St) : Nat :=
  if bbr_extra_acked_gain ≠ 0 ∧ s.full_bw_reached then
    let max_aggr_cwnd := bbr_bw s * bbr_extra_acked_max_us / BW_UNIT
    let aggr_cwnd := (bbr_extra_acked_gain * bbr_extra_acked s) >>> BBR_SCALE
    min aggr_cwnd max_aggr_cwnd
  else 0

/-- src lines 652-693: `bbr_set_cwnd_to_recover_or_restore`; returns the
    updated state, the cwnd via the out parameter, and the boolean result. -/
def bbr_set_cwnd_to_recover_or_restore (e : Env) (rs : RateSample) (acked : Nat)
    (s : St) : St × Nat × Bool :=
  let state := e.icsk_ca_state
  let cwnd := s.snd_cwnd
  let cwnd := if 0 < rs.losses then max (cwnd - rs.losses) 1 else cwnd
  if state = TCP_CA_Recovery ∧ s.prev_ca_state ≠ TCP_CA_Recovery then
    let s := { s with packet_conservation := true,
                      next_rtt_delivered := e.tp_delivered,
                      pm := s.pm.map (fun (pm : Pmodrl) => { pm with next_rtt_delivered := e.tp_delivered }) }
    let cwnd := e.tp_packets_in_flight + acked
    let s := { s with prev_ca_state := state }
    (s, max cwnd (e.tp_packets_in_flight + acked), true)
  else if TCP_CA_Recovery ≤ s.prev_ca_state ∧ state < TCP_CA_Recovery then
    let cwnd := max cwnd s.prior_cwnd
    let s := { s with packet_conservation := false, prev_ca_state := state }
    (s, cwnd, false)
  else
    let s := { s with prev_ca_state := state }
    if s.packet_conservation then (s, max cwnd (e.tp_packets_in_flight + acked), true)
    else (s, cwnd, false)

/-- src lines 698-730: `bbr_set_cwnd`. -/
def bbr_set_cwnd (e : Env) (rs : RateSample) (acked bw gain : Nat) (s : St) : St :=
  let done : St → Nat → St := fun s cwnd =>
    let c := min cwnd e.tp_snd_cwnd_clamp
    let c := if s.mode = BbrMode.probeRtt then min c bbr_cwnd_min_target else c
    { s with snd_cwnd := c }
  if acked = 0 then done s s.snd_cwnd
  else
    let rcr := bbr_set_cwnd_to_recover_or_restore e rs acked s
    let s := rcr.1
    let cwnd := rcr.2.1
    if rcr.2.2 then done s cwnd
    else
      let target_cwnd := bbr_bdp s bw gain
      let target_cwnd := target_cwnd + bbr_ack_aggregation_cwnd s
      let target_cwnd := bbr_quantization_budget e s target_cwnd
      let cwnd :=
        if s.full_bw_reached then min (cwnd + acked) target_cwnd
        else if cwnd < target_cwnd ∨ e.tp_delivered < TCP_INIT_CWND then cwnd + acked
        else cwnd
      let cwnd := max cwnd bbr_cwnd_min_target
      done s cwnd

/-- src lines 733-768: `bbr_is_next_cycle_phase`; reads
    `bbr->pmodrl->cycle_mstamp` without a NULL check, so the absent-detector
    case is a crash (`none`). -/
def bbr_is_next_cycle_phase (e : Env) (rs : RateSample) (s : St) : Option Bool :=
  match s.pm with
  | none => none
  | some pm =>
    let is_full_length :=
      (s.min_rtt_us : Int) < (e.tp_delivered_mstamp : Int) - (pm.cycle_mstamp : Int)
    if s.pacing_gain = BBR_UNIT then some is_full_length
    else
      let inflight := bbr_packets_in_net_at_edt e s rs.prior_in_flight
      let bw := bbr_max_bw s
      if BBR_UNIT < s.pacing_gain then
        some (is_full_length ∧ (rs.losses ≠ 0 ∨ bbr_inflight e s bw s.pacing_gain ≤ inflight))
      else
        some (is_full_length ∨ inflight ≤ bbr_inflight e s bw BBR_UNIT)

/-- src lines 770-777: `bbr_advance_cycle_phase`; writes
    `bbr->pmodrl->cycle_mstamp` without a NULL check (crash when absent). -/
def bbr_advance_cycle_phase (e : Env) (s : St) : Option St :=
  match s.pm with
  | none => none
  | some pm =>
    some { s with cycle_idx := (s.cycle_idx + 1) % CYCLE_LEN,
                  pm := some { pm with cycle_mstamp := e.tp_delivered_mstamp } }

/-- src lines 780-787: `bbr_update_cycle_phase`. -/
def bbr_update_cycle_phase (e : Env) (rs : RateSample) (s : St) : Option St :=
  if s.mode = BbrMode.probeBw then
    match bbr_is_next_cycle_phase e rs s with
    | none => none
    | some b => if b then bbr_advance_cycle_phase e s else some s
  else some s

/-- src lines 789-794: `bbr_reset_startup_mode`. -/
def bbr_reset_startup_mode (s : St) : St := { s with mode := BbrMode.startup }

/-- src lines 796-803: `bbr_reset_probe_bw_mode`; the random phase pick
    `prandom_u32_max(7)` is modelled by `e.rand % 7`. -/
def bbr_reset_probe_bw_mode (e : Env) (s : St) : Option St :=
  let s := { s with mode := BbrMode.probeBw,
                    cycle_idx := CYCLE_LEN - 1 - e.rand % bbr_cycle_rand }
  bbr_advance_cycle_phase e s

/-- src lines 805-811: `bbr_reset_mode`. -/
def bbr_reset_mode (e : Env) (s : St) : Option St :=
  if ¬s.full_bw_reached then some (bbr_reset_startup_mode s)
  else bbr_reset_probe_bw_mode e s

/-- src lines 814-823: `bbr_reset_lt_bw_sampling_interval`. -/
def bbr_reset_lt_bw_sampling_interval (e : Env) (s : St) : St :=
  { s with lt_last_stamp := (e.tp_delivered_mstamp / USEC_PER_MSEC) % 2 ^ 32,
           lt_last_delivered := e.tp_delivered,
           lt_last_lost := e.tp_lost,
           lt_rtt_cnt := 0 }

/-- src lines 826-834: `bbr_reset_lt_bw_sampling`. -/
def bbr_reset_lt_bw_sampling (e : Env) (s : St) : St :=
  bbr_reset_lt_bw_sampling_interval e
    { s with lt_bw := 0, lt_use_bw := false, lt_is_sampling := false }

/-- src lines 837-858: `bbr_lt_bw_interval_done`; `diff` is a u32
    absolute difference via the kernel abs() on unsigned arguments. -/
def bbr_lt_bw_interval_done (e : Env) (bw : Nat) (s : St) : St :=
  let commit :=
    if s.lt_bw ≠ 0 then
      let d32 := u32sub bw s.lt_bw
      let diff := if d32 < 2 ^ 31 then d32 else 2 ^ 32 - d32
      (diff * BBR_UNIT) % 2 ^ 32 ≤ (bbr_lt_bw_ratio_c * s.lt_bw) % 2 ^ 32 ∨
        bbr_rate_bytes_per_sec e diff BBR_UNIT ≤ bbr_lt_bw_diff_c
    else False
  if commit then
    { s with lt_bw := ((bw + s.lt_bw) >>> 1) % 2 ^ 32,
             lt_use_bw := true,
             pacing_gain := BBR_UNIT,
             lt_rtt_cnt := 0 }
  else
    bbr_reset_lt_bw_sampling_interval e { s with lt_bw := bw % 2 ^ 32 }

/-- src lines 867-937: `bbr_lt_bw_sampling`; the 48-round expiry path calls
    `bbr_reset_probe_bw_mode`, hence the `Option` result. -/
def bbr_lt_bw_sampling (e : Env) (rs : RateSample) (s : St) : Option St :=
  if s.lt_use_bw then
    if s.mode = BbrMode.probeBw ∧ s.round_start then
      let s := { s with lt_rtt_cnt := (s.lt_rtt_cnt + 1) % 2 ^ 7 }
      if bbr_lt_bw_max_rtts ≤ s.lt_rtt_cnt then
        bbr_reset_probe_bw_mode e (bbr_reset_lt_bw_sampling e s)
      else some s
    else some s
  else
    let go : St → Option St := fun s =>
      if rs.is_app_limited then some (bbr_reset_lt_bw_sampling e s)
      else
        let s := if s.round_start then { s with lt_rtt_cnt := (s.lt_rtt_cnt + 1) % 2 ^ 7 } else s
        if s.lt_rtt_cnt < bbr_lt_intvl_min_rtts then some s
        else if 4 * bbr_lt_intvl_min_rtts < s.lt_rtt_cnt then
          some (bbr_reset_lt_bw_sampling e s)
        else if rs.losses = 0 then some s
        else
          let lost := u32sub e.tp_lost s.lt_last_lost
          let delivered := u32sub e.tp_delivered s.lt_last_delivered
          if delivered = 0 ∨ (lost <<< BBR_SCALE) % 2 ^ 32 < (bbr_lt_loss_thresh * delivered) % 2 ^ 32 then
            some s
          else
            let t := u32sub ((e.tp_delivered_mstamp / USEC_PER_MSEC) % 2 ^ 32) s.lt_last_stamp
            if s32lt1 t then some s
            else if (2 ^ 32 - 1) / USEC_PER_MSEC ≤ t then
              some (bbr_reset_lt_bw_sampling e s)
            else
              let t := t * USEC_PER_MSEC
              let bw := delivered * BW_UNIT / t
              some (bbr_lt_bw_interval_done e bw s)
    if ¬s.lt_is_sampling then
      if rs.losses = 0 then some s
      else
        go { (bbr_reset_lt_bw_sampling_interval e s) with lt_is_sampling := true }
    else go s

/-- src lines 940-982: `bbr_update_bw`. -/
def bbr_update_bw (e : Env) (rs : RateSample) (s : St) : Option St :=
  let s := { s with round_start := false }
  if rs.delivered < 0 ∨ rs.interval_us ≤ 0 then some s
  else
    let s :=
      if ¬seqBefore rs.prior_delivered s.next_rtt_delivered then
        { s with next_rtt_delivered := e.tp_delivered,
                 rtt_cnt := (s.rtt_cnt + 1) % 2 ^ 32,
                 round_start := true,
                 packet_conservation := false }
      else s
    match bbr_lt_bw_sampling e rs s with
    | none => none
    | some s =>
      let bw := rs.delivered.toNat * BW_UNIT / (rs.interval_us.toNat % 2 ^ 32)
      if ¬rs.is_app_limited ∨ bbr_max_bw s ≤ bw then
        some { s with bw := minmax_running_max s.bw bbr_bw_rtts s.rtt_cnt (bw % 2 ^ 32) }
      else some s

/-- src lines 997-1043: `bbr_update_ack_aggregation`. -/
def bbr_update_ack_aggregation (e : Env) (rs : RateSample) (s : St) : St :=
  if bbr_extra_acked_gain = 0 ∨ rs.acked_sacked = 0 ∨ rs.delivered < 0 ∨ rs.interval_us ≤ 0 then s
  else
    let s :=
      if s.round_start then
        let s := { s with extra_acked_win_rtts := min 0x1F (s.extra_acked_win_rtts + 1) }
        if bbr_extra_acked_win_rtts ≤ s.extra_acked_win_rtts then
          let idx := if s.extra_acked_win_idx ≠ 0 then 0 else 1
          let s := { s with extra_acked_win_rtts := 0, extra_acked_win_idx := idx }
          if idx = 0 then { s with extra_acked0 := 0 } else { s with extra_acked1 := 0 }
        else s
      else s
    let epoch_us := u64ofInt ((e.tp_delivered_mstamp : Int) - (s.ack_epoch_mstamp : Int)) % 2 ^ 32
    let expected_acked := (bbr_bw s * epoch_us / BW_UNIT) % 2 ^ 32
    let se :=
      if s.ack_epoch_acked ≤ expected_acked ∨
         bbr_ack_epoch_acked_reset_thresh ≤ s.ack_epoch_acked + rs.acked_sacked then
        ({ s with ack_epoch_acked := 0, ack_epoch_mstamp := e.tp_delivered_mstamp }, 0)
      else (s, expected_acked)
    let s := se.1
    let expected_acked := se.2
    let s := { s with ack_epoch_acked := min 0xFFFFF (s.ack_epoch_acked + rs.acked_sacked) }
    let extra_acked := u32sub s.ack_epoch_acked expected_acked
    let extra_acked := min extra_acked s.snd_cwnd
    if s.extra_acked_win_idx = 0 then
      if s.extra_acked0 < extra_acked then { s with extra_acked0 := extra_acked } else s
    else
      if s.extra_acked1 < extra_acked then { s with extra_acked1 := extra_acked } else s

/-- src lines 1053-1070: `bbr_check_full_bw_reached`; `full_bw_cnt` is a
    2-bit field, `bw_thresh` a u32. -/
def bbr_check_full_bw_reached (rs : RateSample) (s : St) : St :=
  if s.full_bw_reached ∨ ¬s.round_start ∨ rs.is_app_limited then s
  else
    let bw_thresh := ((s.full_bw * bbr_full_bw_thresh) >>> BBR_SCALE) % 2 ^ 32
    if bw_thresh ≤ bbr_max_bw s then
      { s with full_bw := bbr_max_bw s, full_bw_cnt := 0 }
    else
      let s := { s with full_bw_cnt := (s.full_bw_cnt + 1) % 4 }
      { s with full_bw_reached := bbr_full_bw_cnt ≤ s.full_bw_cnt }

/-- src lines 1073-1086: `bbr_check_drain`. -/
def bbr_check_drain (e : Env) (rs : RateSample) (s : St) : Option St :=
  let s :=
    if s.mode = BbrMode.startup ∧ s.full_bw_reached then
      { s with mode := BbrMode.drain,
               snd_ssthresh := bbr_inflight e s (bbr_max_bw s) BBR_UNIT }
    else s
  if s.mode = BbrMode.drain ∧
     bbr_packets_in_net_at_edt e s e.tp_packets_in_flight ≤
       bbr_inflight e s (bbr_max_bw s) BBR_UNIT then
    bbr_reset_probe_bw_mode e s
  else some s

/-- src lines 1088-1100: `bbr_check_probe_rtt_done`. -/
def bbr_check_probe_rtt_done (e : Env) (s : St) : Option St :=
  if ¬(s.probe_rtt_done_stamp ≠ 0 ∧ seqAfter e.jiffies s.probe_rtt_done_stamp) then some s
  else
    let s := { s with min_rtt_stamp := e.jiffies,
                      snd_cwnd := max s.snd_cwnd s.prior_cwnd }
    bbr_reset_mode e s

/-- src lines 1121-1173: `bbr_update_min_rtt`. -/
def bbr_update_min_rtt (e : Env) (rs : RateSample) (s : St) : Option St :=
  let tail : St → St := fun s => if 0 < rs.delivered then { s with idle_restart := false } else s
  let filter_expired :=
    seqAfter e.jiffies ((s.min_rtt_stamp + bbr_min_rtt_win_sec * HZ) % 2 ^ 32)
  let s :=
    if 0 ≤ rs.rtt_us ∧
       (rs.rtt_us.toNat ≤ s.min_rtt_us ∨ (filter_expired ∧ ¬rs.is_ack_delayed)) then
      { s with min_rtt_us := rs.rtt_us.toNat, min_rtt_stamp := e.jiffies }
    else s
  let s :=
    if 0 < bbr_probe_rtt_mode_ms ∧ filter_expired ∧ ¬s.idle_restart ∧
       s.mode ≠ BbrMode.probeRtt then
      let s := { s with mode := BbrMode.probeRtt }
      let s := bbr_save_cwnd s
      { s with probe_rtt_done_stamp := 0 }
    else s
  if s.mode = BbrMode.probeRtt then
    let al := e.tp_delivered + e.tp_packets_in_flight
    let s : St := { s with app_limited := if al ≠ 0 then al else 1 }
    let s : St := { s with pm := s.pm.map (fun (pm : Pmodrl) => { pm with probe_rtt_flag := 1 }) }
    if s.probe_rtt_done_stamp = 0 ∧ e.tp_packets_in_flight ≤ bbr_cwnd_min_target then
      let s : St := { s with
        probe_rtt_done_stamp := (e.jiffies + msecs_to_jiffies bbr_probe_rtt_mode_ms) % 2 ^ 32,
        probe_rtt_round_done := false,
        next_rtt_delivered := e.tp_delivered,
        pm := s.pm.map (fun (pm : Pmodrl) => { pm with next_rtt_delivered := e.tp_delivered }) }
      some (tail s)
    else if s.probe_rtt_done_stamp ≠ 0 then
      let s := if s.round_start then { s with probe_rtt_round_done := true } else s
      if s.probe_rtt_round_done then
        match bbr_check_probe_rtt_done e s with
        | none => none
        | some s => some (tail s)
      else some (tail s)
    else some (tail s)
  else some (tail s)

/-- src lines 1175-1202: `bbr_update_gains`. -/
def bbr_update_gains (s : St) : St :=
  match s.mode with
  | BbrMode.startup => { s with pacing_gain := bbr_high_gain, cwnd_gain := bbr_high_gain }
  | BbrMode.drain => { s with pacing_gain := bbr_drain_gain, cwnd_gain := bbr_high_gain }
  | BbrMode.probeBw =>
    { s with pacing_gain := if s.lt_use_bw then BBR_UNIT
                            else bbr_pacing_gain_vals (s.cycle_idx % CYCLE_LEN),
             cwnd_gain := bbr_cwnd_gain }
  | BbrMode.probeRtt => { s with pacing_gain := BBR_UNIT, cwnd_gain := BBR_UNIT }

/-- src lines 1204-1213: `bbr_update_model`. -/
def bbr_update_model (e : Env) (rs : RateSample) (s : St) : Option St :=
  (bbr_update_bw e rs s).bind (fun s =>
    (bbr_update_cycle_phase e rs (bbr_update_ack_aggregation e rs s)).bind (fun s =>
      (bbr_check_drain e rs (bbr_check_full_bw_reached rs s)).bind (fun s =>
        (bbr_update_min_rtt e rs s).map (fun s => bbr_update_gains s))))

/-- Grid index lists for the detector loops. -/
def idx0to8 : List (Fin 9) := [0, 1, 2, 3, 4, 5, 6, 7, 8]

def idx1to8 : List (Fin 9) := [1, 2, 3, 4, 5, 6, 7, 8]

/-- src lines 1215-1239: the loop body of `comp`; `best` carries the current
    best index, iteration stops at the first index that fails both tests. -/
def comp_go (now bstart : Nat) (B R : Fin 9 → Nat) : List (Fin 9) → Fin 9 → Nat
  | [], best => best.val
  | i :: rest, best =>
    let b_diff := s64abs (u64sub (B i) (B best))
    let r_diff := s64abs (u64sub (R i) (R best))
    let flow_len_us := u32sub now bstart
    if r_diff = 0 then comp_go now bstart B R rest i
    else if flow_len_us * BASED_SCALE < ((b_diff * BASED_SCALE * 2) % 2 ^ 64) / r_diff then
      comp_go now bstart B R rest i
    else best.val

/-- src lines 1215-1239: `comp`. -/
def comp (now : Nat) (pm : Pmodrl) : Nat :=
  comp_go now pm.bbr_start_us pm.B_arr pm.R_arr idx1to8 0

/-- src lines 1278-1288: the candidate-bucket population loop of
    `estimation_classify`; `bld` is `before_loss_delivered`. -/
def populate_B (bld : Nat) : Fin 9 → Nat := fun i =>
  if percent_arr i = 0 then 0
  else
    let lower_bound_B := bld * (BASED_UNIT - abrupt_decrease_thresh)
    bld * percent_arr i + (((BW_UNIT - percent_arr i) * lower_bound_B) >>> BASED_SCALE)

/-- src lines 1289-1299 and 1310-1320: the R-refinement loops of
    `estimation_classify`.  `dt` is the elapsed-µs divisor, `tms` the
    elapsed-ms value whose `(s32)t < 1` test aborts the whole function
    (Bool result false), `dlv` the delivered count being fitted. -/
def refine_loop (dt tms dlv : Nat) : List (Fin 9) → Pmodrl → Pmodrl × Bool
  | [], pm => (pm, true)
  | i :: rest, pm =>
    if pm.B_arr i < dlv * BW_UNIT then
      if s32lt1 tms then (pm, false)
      else
        let h := dlv * BW_UNIT - pm.B_arr i
        let R := h / dt
        refine_loop dt tms dlv rest
          { pm with R_arr := Function.update pm.R_arr i (max (pm.R_arr i) R) }
    else refine_loop dt tms dlv rest pm

/-- src lines 1263-1308: the high-loss arming phase of `estimation_classify`
    (everything under `if (high_loss_flag == 0)`), including the grid
    population on success.  The Bool is false when the C code `return`s. -/
def arm_high_loss (now min_rtt cd cl : Nat) (pm : Pmodrl) : Pmodrl × Bool :=
  if pm.high_loss_flag = 0 then
    if pm.loss_start_time_us ≠ 0 ∧ (pm.loss_start_time_us + 7 * min_rtt) % 2 ^ 32 < now then
      let d := u32sub cd pm.before_loss_delivered
      let l := u32sub cl pm.before_loss_lost
      if (d + l) % 2 ^ 32 ≠ 0 ∧ ((d + l) % 2 ^ 32) * 2 < l * 10 then
        let pm := { pm with high_loss_flag := 1 }
        let t := u64sub (pm.before_loss_time_us / USEC_PER_MSEC) (pm.bbr_start_us / USEC_PER_MSEC)
        if s32lt1 t then (pm, false)
        else
          let bef_empty :=
            pm.before_loss_delivered * BW_UNIT / u32sub pm.before_loss_time_us pm.bbr_start_us
          let pm := { pm with bef_empty_goodput := bef_empty,
                              B_arr := populate_B pm.before_loss_delivered }
          refine_loop (u32sub pm.before_loss_time_us pm.bbr_start_us) t
            pm.before_loss_delivered idx0to8 pm
      else ({ pm with loss_start_time_us := 0 }, false)
    else (pm, false)
  else (pm, true)

/-- Helper used by the grid-shift loop: `R_arr[0] = max(R_arr[0], v)`
    (src lines 1334 and 1339, where the loop index has reached 0). -/
def pm_update_R0 (v : Nat) (pm : Pmodrl) : Pmodrl :=
  { pm with R_arr := Function.update pm.R_arr 0 (max (pm.R_arr 0) v) }

/-- src lines 1323-1340: one iteration of the grid-shift `while` loop of
    `estimation_classify` (executed when the best index is 0). -/
def shift_step (now cd : Nat) (pm : Pmodrl) : Pmodrl :=
  let incr_diff := u64sub (pm.B_arr 0) (pm.B_arr 1)
  let B1 : Fin 9 → Nat := fun k =>
    if k.val = 0 then (pm.B_arr 0 + incr_diff) % 2 ^ 64
    else pm.B_arr ⟨k.val - 1, by omega⟩
  let R1 : Fin 9 → Nat := fun k =>
    if k.val = 0 then 0
    else pm.R_arr ⟨k.val - 1, by omega⟩
  let pm := { pm with B_arr := B1, R_arr := R1 }
  let pm :=
    if pm.B_arr 0 < cd * BW_UNIT then
      pm_update_R0 ((cd * BW_UNIT - pm.B_arr 0) / u32sub now pm.bbr_start_us) pm
    else pm
  if pm.B_arr 0 < pm.before_loss_delivered * BW_UNIT then
    pm_update_R0 ((pm.before_loss_delivered * BW_UNIT - pm.B_arr 0) /
      u32sub pm.before_loss_time_us pm.bbr_start_us) pm
  else pm

/-- src lines 1323-1342: the grid-shift `while` loop; the C loop is unbounded
    (it re-runs `comp` after each shift), modelled with explicit fuel. -/
def shift_while (now cd : Nat) : Nat → Nat → Pmodrl → Pmodrl
  | _, b + 1, pm => { pm with best_index := b + 1 }
  | 0, 0, pm => pm
  | fuel + 1, 0, pm =>
    let pm := shift_step now cd pm
    shift_while now cd fuel (comp now pm) pm

/-- Fuel bound for the grid-shift loop (ample for any state reached in the
    verified scenarios). -/
def shift_fuel : Nat := 1000000

/-- src lines 1321-1343: best-candidate selection followed by the grid-shift
    loop and the final `best_index` assignment. -/
def comp_and_shift (fuel now cd : Nat) (pm : Pmodrl) : Pmodrl :=
  let best := comp now pm
  let pm := { pm with best_index := best }
  shift_while now cd fuel best pm

/-- src lines 1344-1388: the classification tail of `estimation_classify`:
    abrupt-decrease test, demotion 1 to 2, stability timing and the final
    commit.  The Bool records whether `bbr_reset_lt_bw_sampling` was invoked
    (the call at line 1364); the caller applies that reset to the core state. -/
def classify_update (e : Env) (now min_rtt : Nat) (pm : Pmodrl) : Pmodrl × Bool :=
  let abrupt := (getR pm pm.best_index * BASED_UNIT) % 2 ^ 64 ≤
                (abrupt_decrease_thresh * pm.bef_empty_goodput) % 2 ^ 64
  if pm.classify = 1 then
    if ¬abrupt then ({ pm with classify := 2, disable_flag := 1 }, false) else (pm, false)
  else
    if pm.high_loss_flag ≠ 0 ∧ abrupt then
      let pm := if pm.classify_time_us = 0 then { pm with classify_time_us := now } else pm
      let pml := if pm.reset_ltbw_flag = 0 then ({ pm with reset_ltbw_flag := 1 }, true)
                 else (pm, false)
      let pm := pml.1
      let ltr := pml.2
      if getR pm pm.best_index ≠ pm.mem_R ∨ getB pm pm.best_index ≠ pm.mem_B then
        ({ pm with classify_time_us := now,
                   mem_B := getB pm pm.best_index,
                   mem_R := getR pm pm.best_index }, ltr)
      else
        if (10 * min_rtt) % 2 ^ 32 < u32sub now pm.classify_time_us then
          ({ pm with classify := 1, upper_bound := 1,
                     detected_time := u32sub now pm.bbr_start_us,
                     detected_bytes_acked := e.tp_bytes_acked }, ltr)
        else (pm, ltr)
    else ({ pm with classify_time_us := 0 }, false)

/-- src lines 1241-1389: `estimation_classify` (called with the detector
    present); the lt-estimator reset requested inside the classification tail
    is applied to the core state, all other effects are on the detector. -/
def estimation_classify_core (cfg : Cfg) (e : Env) (s : St) (pm0 : Pmodrl) : St × Pmodrl :=
  let now := jiffies_to_usecs e.jiffies
  let cd :=
    if cfg.use_goodput ≠ 0 then
      u32sub (e.tp_snd_una / e.tp_mss_cache) pm0.transfer_start_deliverd
    else u32sub e.tp_delivered pm0.transfer_start_deliverd
  let cl := u32sub e.tp_lost pm0.transfer_start_lost
  let a := arm_high_loss now s.min_rtt_us cd cl pm0
  if ¬a.2 then (s, a.1)
  else
    let pm := a.1
    let t := u64sub (now / USEC_PER_MSEC) (pm.bbr_start_us / USEC_PER_MSEC)
    let r := refine_loop (u32sub now pm.bbr_start_us) t cd idx0to8 pm
    if ¬r.2 then (s, r.1)
    else
      let pm := comp_and_shift shift_fuel now cd r.1
      let cu := classify_update e now s.min_rtt_us pm
      (if cu.2 then bbr_reset_lt_bw_sampling e s else s, cu.1)

/-- src lines 1391-1437: `probe_pmodrl` (body under the presence guard). -/
def probe_pmodrl_core (cfg : Cfg) (e : Env) (s : St) (pm : Pmodrl) : St × Pmodrl :=
  if pm.classify = 1 ∧ cfg.optimize_flag ≠ 0 then
    if pm.upper_bound ≠ 1 ∨ pm.nominator ≠ 0 then
      let pm :=
        if pm.round_start then
          let pm := { pm with round_count_no := pm.round_count_no + 1 }
          if cfg.monitor_peroid ≤ pm.round_count_no ∧ pm.mem_B = getB pm pm.best_index ∧
             pm.mem_R = getR pm pm.best_index then
            { pm with upper_bound := 1, nominator := 0, round_count_no := 0 }
          else pm
        else pm
      if pm.mem_B ≠ getB pm pm.best_index ∨ pm.mem_R ≠ getR pm pm.best_index then
        (s, { pm with upper_bound := 2, nominator := 0,
                      mem_B := getB pm pm.best_index, mem_R := getR pm pm.best_index,
                      round_count_no := 0, next_rtt_delivered := e.tp_delivered,
                      dis_loss_start := 2 })
      else (s, pm)
    else
      if pm.round_start then
        let pm := { pm with round_count := pm.round_count + 1 }
        if cfg.probe_interval ≤ pm.round_count then
          let pm := { pm with upper_bound := 1, nominator := 1,
                              mem_B := getB pm pm.best_index,
                              mem_R := getR pm pm.best_index,
                              round_count := 0, round_count_no := 0,
                              cycle_mstamp := e.tp_delivered_mstamp }
          ({ s with cycle_idx := 0, mode := BbrMode.probeBw }, pm)
        else (s, pm)
      else (s, pm)
  else (s, pm)

/-- src lines 1439-1473: `reset_pmodrl`. -/
def reset_pmodrl (cfg : Cfg) (e : Env) (res1 res2 : Nat) (pm : Pmodrl) : Pmodrl :=
  let flag := if pm.classify = 1 then 1
              else if pm.classify = 2 then 2
              else if pm.classify ≠ 0 then pm.classify else 0
  let pm0 := { zeroPmodrl with
    bbr_start_us := jiffies_to_usecs e.jiffies,
    transfer_start_lost := e.tp_lost,
    transfer_start_deliverd :=
      if cfg.use_goodput ≠ 0 then e.tp_snd_una / e.tp_mss_cache else e.tp_delivered,
    buffer := pm.buffer }
  if flag = 1 then { pm0 with classify := res1 }
  else if flag = 2 then { pm0 with classify := res2 }
  else if flag ≠ 0 then { pm0 with classify := flag }
  else pm0

/-- src lines 1489-1528: the detector section of `bbr_main` (under the
    `if (bbr->pmodrl)` guard) up to the `probe_pmodrl` call. -/
def main_pm_mid (cfg : Cfg) (e : Env) (rs : RateSample) (s : St) (pm : Pmodrl) : St × Pmodrl :=
  let now := jiffies_to_usecs e.jiffies
  let pm := { pm with latest_ack_us := now }
  let pm := if pm.bbr_start_us = 0 then { pm with bbr_start_us := now } else pm
  let sp := if pm.disable_flag = 0 then estimation_classify_core cfg e s pm else (s, pm)
  let s := sp.1
  let pm := sp.2
  let pm :=
    if pm.lastest_ack_loss ≠ e.tp_lost then
      if pm.high_loss_flag = 0 ∧ pm.loss_start_time_us = 0 then
        { pm with loss_start_time_us := now }
      else pm
    else
      if pm.high_loss_flag = 0 ∧ pm.loss_start_time_us = 0 then
        let bld :=
          if cfg.use_goodput ≠ 0 then
            u32sub (e.tp_snd_una / e.tp_mss_cache) pm.transfer_start_deliverd
          else u32sub e.tp_delivered pm.transfer_start_deliverd
        { pm with before_loss_delivered := bld,
                  before_loss_time_us := now,
                  before_loss_lost := u32sub e.tp_lost pm.transfer_start_lost }
      else pm
  let pm := { pm with lastest_ack_loss := e.tp_lost }
  let s := if pm.classify = 1 ∧ cfg.optimize_flag ≠ 0 then bbr_reset_lt_bw_sampling e s else s
  let pm :=
    if u32sub e.tp_write_seq e.tp_snd_nxt < e.tp_mss_cache ∧ e.sk_wmem_small ∧
       e.tp_packets_in_flight < s.snd_cwnd ∧ e.tp_lost_out ≤ e.tp_retrans_out then
      { pm with probe_rtt_flag := 0 }
    else pm
  let pm := { pm with round_start := false }
  let pm :=
    if ¬seqBefore rs.prior_delivered pm.next_rtt_delivered ∧
       ¬(rs.delivered < 0 ∨ rs.interval_us ≤ 0) then
      { pm with next_rtt_delivered := e.tp_delivered, round_start := true }
    else pm
  (s, pm)

/-- src lines 1489-1530: the detector section of `bbr_main` (under the
    `if (bbr->pmodrl)` guard): the bookkeeping above followed by
    `probe_pmodrl`. -/
def main_pm_block (cfg : Cfg) (e : Env) (rs : RateSample) (s : St) (pm : Pmodrl) : St :=
  let sp := main_pm_mid cfg e rs s pm
  let sp2 := probe_pmodrl_core cfg e sp.1 sp.2
  { sp2.1 with pm := some sp2.2 }

/-- src lines 1538-1570: the tail of `bbr_main` (log bookkeeping and the
    exclude-condition resets; string formatting is not modelled). -/
def main_tail_block (cfg : Cfg) (e : Env) (rs : RateSample) (s : St) (pm : Pmodrl) : St :=
  let pm := { pm with store_interval := pm.store_interval + 1 }
  let pm := if pm.buffer ∧ STORE_INTERVAL ≤ pm.store_interval then
              { pm with store_interval := 0 } else pm
  let pm := if cfg.exclude_rwnd ≠ 0 ∧ e.tp_chrono_rwnd_limited then
              reset_pmodrl cfg e 5 6 pm else pm
  let pm := if cfg.exclude_RTO ≠ 0 ∧ s.prev_ca_state = TCP_CA_Loss ∧
               e.icsk_ca_state ≠ TCP_CA_Loss then
              reset_pmodrl cfg e 7 8 pm else pm
  let pm := if cfg.exclude_applimited ≠ 0 ∧ rs.is_app_limited then
              reset_pmodrl cfg e 9 10 pm else pm
  { s with pm := some pm }

/-- src line 1489: the detector section of `bbr_main` behind its presence
    guard. -/
def post_pm_stage (cfg : Cfg) (e : Env) (rs : RateSample) (s : St) : St :=
  match s.pm with
  | none => s
  | some pm => main_pm_block cfg e rs s pm

/-- src line 1538: the tail of `bbr_main` behind its presence guard. -/
def post_tail_stage (cfg : Cfg) (e : Env) (rs : RateSample) (s : St) : St :=
  match s.pm with
  | none => s
  | some pm => main_tail_block cfg e rs s pm

/-- src lines 1475-1571: the part of `bbr_main` after `bbr_update_model`
    (this part of the handler is crash-free, hence pure). -/
def bbr_main_post (cfg : Cfg) (e : Env) (rs : RateSample) (s : St) : St :=
  let s := post_pm_stage cfg e rs s
  let bw := bbr_bw s
  let s := bbr_set_pacing_rate cfg e bw s.pacing_gain s
  let s := bbr_set_cwnd e rs rs.acked_sacked bw s.cwnd_gain s
  post_tail_stage cfg e rs s

/-- src lines 1475-1571: `bbr_main`, the per-sample handler. -/
def bbr_main (cfg : Cfg) (e : Env) (rs : RateSample) (s : St) : Option St :=
  (bbr_update_model e rs s).map (bbr_main_post cfg e rs)

/-- src lines 473-521: `bbr_cwnd_event` for `CA_EVENT_TX_START`.  After the
    mode-specific handling the code writes `bbr->pmodrl->bbr_start_us` (line
    514) without a NULL check, so the absent-detector case crashes (`none`). -/
def bbr_cwnd_event_tx_start (cfg : Cfg) (e : Env) (s : St) : Option St :=
  if s.app_limited ≠ 0 then
    let s := { s with idle_restart := true,
                      ack_epoch_mstamp := e.tp_tcp_mstamp,
                      ack_epoch_acked := 0 }
    let sOpt : Option St :=
      if s.mode = BbrMode.probeBw then some (bbr_set_pacing_rate cfg e (bbr_bw s) BBR_UNIT s)
      else if s.mode = BbrMode.probeRtt then bbr_check_probe_rtt_done e s
      else some s
    match sOpt with
    | none => none
    | some s =>
      match s.pm with
      | none => none
      | some pm =>
        some { s with pm := some { pm with
          bbr_start_us := jiffies_to_usecs e.jiffies,
          transfer_start_lost := e.tp_lost,
          transfer_start_deliverd :=
            if cfg.use_goodput ≠ 0 then e.tp_snd_una / e.tp_mss_cache
            else e.tp_delivered } }
  else some s

/-! ## Concrete template values used by witnesses and counterexamples -/

/-- A concrete environment: an idle connection with MSS 1500 and the kernel
    default (unlimited) sk_max_pacing_rate. -/
def env0 : Env :=
  { jiffies := 0
    tp_delivered := 0
    tp_lost := 0
    tp_snd_una := 0
    tp_mss_cache := 1500
    tp_srtt_us := 0
    tp_bytes_acked := 0
    tp_delivered_mstamp := 0
    tp_tcp_mstamp := 0
    tp_tcp_clock_cache := 0
    tp_tcp_wstamp_ns := 0
    tp_packets_in_flight := 0
    tp_snd_cwnd_clamp := 2 ^ 31
    tp_write_seq := 0
    tp_snd_nxt := 0
    tp_lost_out := 0
    tp_retrans_out := 0
    tp_chrono_rwnd_limited := false
    icsk_ca_state := 0
    sk_max_pacing_rate := 2 ^ 64 - 1
    sk_pacing_shift := 10
    sk_wmem_small := false
    rand := 0 }

/-- A concrete null rate sample: `interval_us = 0`, nothing delivered. -/
def nullSample : RateSample :=
  { delivered := 0
    prior_delivered := 0
    losses := 0
    acked_sacked := 0
    is_app_limited := false
    is_ack_delayed := false
    interval_us := 0
    rtt_us := 0
    prior_in_flight := 0 }

/-- A concrete baseline per-connection state shortly after init. -/
def st0 : St :=
  { min_rtt_us := 1000
    min_rtt_stamp := 0
    probe_rtt_done_stamp := 0
    bw := minmax_reset 0 0
    rtt_cnt := 0
    next_rtt_delivered := 0
    mode := BbrMode.startup
    prev_ca_state := 0
    packet_conservation := false
    round_start := false
    idle_restart := false
    probe_rtt_round_done := false
    lt_is_sampling := false
    lt_rtt_cnt := 0
    lt_use_bw := false
    lt_bw := 0
    lt_last_delivered := 0
    lt_last_stamp := 0
    lt_last_lost := 0
    pacing_gain := bbr_high_gain
    cwnd_gain := bbr_high_gain
    full_bw_reached := false
    full_bw_cnt := 0
    cycle_idx := 0
    has_seen_rtt := true
    prior_cwnd := 0
    full_bw := 0
    ack_epoch_mstamp := 0
    extra_acked0 := 0
    extra_acked1 := 0
    ack_epoch_acked := 0
    extra_acked_win_rtts := 0
    extra_acked_win_idx := 0
    pm := some zeroPmodrl
    sk_pacing_rate := 0
    snd_cwnd := 10
    snd_ssthresh := 2 ^ 31
    app_limited := 0 }

/-- Helper: the baseline state placed in PROBE_RTT (C8 witness input). -/
def st8 : St := { st0 with mode := BbrMode.probeRtt }

/-- Helper: one `bbr_main` step from the baseline state on the null sample
    (C9 counterexample). -/
def st9a : St := (bbr_main defaultCfg env0 nullSample st0).getD st0

/-! ## C1: the detector cap on the pacing rate -/

/-- Helper: the detector block of the C1 witness (classified, cap active,
    not probing). -/
def pmC1 : Pmodrl := { zeroPmodrl with classify := 1, upper_bound := 1 }

/-- Helper: the state of the C1 witness. -/
def stC1 : St := { st0 with pm := some pmC1 }

/-- Helper: the detector block of the C2 witness (classified, cap active,
    round starting). -/
def pmC2 : Pmodrl := { zeroPmodrl with classify := 1, upper_bound := 1, round_start := true }

/-- Helper: the state of the C2 witness (PROBE_BW). -/
def stC2 : St := { st0 with mode := BbrMode.probeBw, pm := some pmC2 }

/-- Helper: the detector block of the C3 witness. -/
def pmC3 : Pmodrl := { zeroPmodrl with high_loss_flag := 1, classify_time_us := 5 }

/-- Helper: the block of the C4 counterexample: a pre-loss snapshot with the
    loss timer armed at time 100. -/
def pmC4 : Pmodrl := { zeroPmodrl with loss_start_time_us := 100 }

/-- The monotonicity the code actually establishes: `B_arr` is
    non-increasing in the index. -/
def B_antitone (B : Fin 9 → Nat) : Prop := ∀ i j : Fin 9, i ≤ j → B j ≤ B i

instance (B : Fin 9 → Nat) : Decidable (B_antitone B) := by
  unfold B_antitone
  infer_instance

/-- Helper: a concrete shifted grid for the C6 witness. -/
def pmC6 : Pmodrl := { zeroPmodrl with B_arr := populate_B 7 }

/-- The transition relation the claim asserts, following the claim's (and
    spec's) words: only 0 to 1, 0 to 2, and 1 to 2 are allowed. -/
def specClassifyTransition (a b : Nat) : Prop :=
  (a = 0 ∧ b = 1) ∨ (a = 0 ∧ b = 2) ∨ (a = 1 ∧ b = 2)

instance (a b : Nat) : Decidable (specClassifyTransition a b) := by
  unfold specClassifyTransition
  infer_instance

/-- Helper: the configuration of the C7 counterexample (`exclude_rwnd`
    enabled, everything else default). -/
def cfgC7 : Cfg := { defaultCfg with exclude_rwnd := 1 }

/-- Helper: the environment of the C7 counterexample (receive-window
    limited). -/
def envC7 : Env := { env0 with tp_chrono_rwnd_limited := true }

/-- Helper: the state of the C7 counterexample (classified detector). -/
def stC7 : St := { st0 with pm := some pmC1 }

/-- Helper: a state whose detector block is absent (allocation failure). -/
def stC5 : St := { st0 with pm := none, app_limited := 1 }

/-- Helper: the store stage of `bbr_set_pacing_rate` either leaves the socket
    pacing rate unchanged or stores exactly the computed rate. -/
theorem pacing_store2_sk_cases (cfg : Cfg) (rate : Nat) (flag : Bool) (t : St) :
    (pacing_store2 cfg rate flag t).sk_pacing_rate = t.sk_pacing_rate ∨
    (pacing_store2 cfg rate flag t).sk_pacing_rate = rate := by
  unfold pacing_store2
  cases hpm : t.pm with
  | none =>
    by_cases h : (t.full_bw_reached : Prop) ∨ t.sk_pacing_rate < rate
    · simp only [hpm, if_pos h]; right; trivial
    · simp only [hpm, if_neg h]; left; trivial
  | some pm =>
    simp only [hpm]
    by_cases hc : pm.classify = 1 ∧ flag = true ∧ cfg.optimize_flag ≠ 0
    · simp only [if_pos hc]; right; trivial
    · simp only [if_neg hc]
      by_cases h : (t.full_bw_reached : Prop) ∨ t.sk_pacing_rate < rate
      · simp only [if_pos h]; right; trivial
      · simp only [if_neg h]; left; trivial

/-- Helper: the socket pacing rate after `bbr_set_pacing_rate` is the old
    value, the early-RTT initialization value, or the computed capped rate. -/
theorem bbr_set_pacing_rate_sk_cases (cfg : Cfg) (e : Env) (bw gain : Nat) (s : St) :
    (bbr_set_pacing_rate cfg e bw gain s).sk_pacing_rate = s.sk_pacing_rate ∨
    (bbr_set_pacing_rate cfg e bw gain s).sk_pacing_rate =
      (bbr_init_pacing_rate_from_rtt e s).sk_pacing_rate ∨
    (bbr_set_pacing_rate cfg e bw gain s).sk_pacing_rate =
      (bbr_capped_rate cfg e s bw gain).1 := by
  unfold bbr_set_pacing_rate
  by_cases h : ¬(s.has_seen_rtt : Prop) ∧ e.tp_srtt_us ≠ 0
  · rw [if_pos h]
    rcases pacing_store2_sk_cases cfg (bbr_capped_rate cfg e s bw gain).1
      (bbr_capped_rate cfg e s bw gain).2 (bbr_init_pacing_rate_from_rtt e s) with h1 | h1
    · exact Or.inr (Or.inl h1)
    · exact Or.inr (Or.inr h1)
  · rw [if_neg h]
    rcases pacing_store2_sk_cases cfg (bbr_capped_rate cfg e s bw gain).1
      (bbr_capped_rate cfg e s bw gain).2 s with h1 | h1
    · exact Or.inl h1
    · exact Or.inr (Or.inr h1)

/-- C1.  While the detector has `classify = 1`, `optimize_flag` is on,
    `upper_bound = 1` and `nominator = 0`, the rate value that
    `bbr_set_pacing_rate` stores into the socket (the local `rate` after the
    cap logic) equals `min(BBR_rate, cap_rate)` where the cap rate is derived
    from `R_arr[best_index]` at gain 1.0 (no probe inflation since the
    nominator is 0); in particular it never exceeds the cap, and (when the
    early-RTT re-initialization path is inactive, i.e. `has_seen_rtt`) the
    socket pacing rate after the call is either unchanged or that value. -/
theorem c1_pacing_cap (cfg : Cfg) (e : Env) (s : St) (bw gain : Nat) (pm : Pmodrl)
    (hpm : s.pm = some pm) (hc : pm.classify = 1) (ho : cfg.optimize_flag ≠ 0)
    (hu : pm.upper_bound = 1) (hn : pm.nominator = 0) :
    (bbr_capped_rate cfg e s bw gain).1 =
      min (bbr_bw_to_pacing_rate e bw gain)
        (bbr_bw_to_pacing_rate_pmodrl cfg e s (getR pm pm.best_index) BBR_UNIT 0) ∧
    (bbr_capped_rate cfg e s bw gain).1 ≤
      bbr_bw_to_pacing_rate_pmodrl cfg e s (getR pm pm.best_index) BBR_UNIT 0 ∧
    bbr_bw_to_pacing_rate_pmodrl cfg e s (getR pm pm.best_index) BBR_UNIT 0 =
      bbr_bw_to_pacing_rate e (getR pm pm.best_index) BBR_UNIT ∧
    (s.has_seen_rtt = true →
      (bbr_set_pacing_rate cfg e bw gain s).sk_pacing_rate = s.sk_pacing_rate ∨
      (bbr_set_pacing_rate cfg e bw gain s).sk_pacing_rate =
        (bbr_capped_rate cfg e s bw gain).1) := by
  have hplain : bbr_bw_to_pacing_rate_pmodrl cfg e s (getR pm pm.best_index) BBR_UNIT 0 =
      bbr_bw_to_pacing_rate e (getR pm pm.best_index) BBR_UNIT := by
    simp [bbr_bw_to_pacing_rate_pmodrl, bbr_bw_to_pacing_rate, hpm]
  have hcap : bbr_capped_rate cfg e s bw gain =
      (min (bbr_bw_to_pacing_rate e bw gain)
        (bbr_bw_to_pacing_rate_pmodrl cfg e s (getR pm pm.best_index) BBR_UNIT 0),
       decide (bbr_bw_to_pacing_rate_pmodrl cfg e s (getR pm pm.best_index) BBR_UNIT 0 <
         bbr_bw_to_pacing_rate e bw gain)) := by
    rw [bbr_capped_rate, hpm]
    simp only [hc, hu, hn, and_self, if_true, ite_true, true_and]
    by_cases hlt : bbr_bw_to_pacing_rate_pmodrl cfg e s (getR pm pm.best_index) BBR_UNIT 0 <
        bbr_bw_to_pacing_rate e bw gain
    · simp [hlt, ho, Nat.min_eq_right (Nat.le_of_lt hlt)]
    · simp [hlt, ho, Nat.min_eq_left (Nat.le_of_not_lt hlt)]
  refine ⟨by rw [hcap], ?_, hplain, ?_⟩
  · rw [hcap]
    exact Nat.min_le_right _ _
  · intro hseen
    unfold bbr_set_pacing_rate
    have hcond : ¬(¬(s.has_seen_rtt : Prop) ∧ e.tp_srtt_us ≠ 0) := by simp [hseen]
    rw [if_neg hcond]
    exact pacing_store2_sk_cases cfg (bbr_capped_rate cfg e s bw gain).1
      (bbr_capped_rate cfg e s bw gain).2 s

/-- Witness for C1 at a concrete classified state. -/
theorem c1_pacing_cap_witness :
    (bbr_capped_rate defaultCfg env0 stC1 100 256).1 =
      min (bbr_bw_to_pacing_rate env0 100 256)
        (bbr_bw_to_pacing_rate_pmodrl defaultCfg env0 stC1 (getR pmC1 pmC1.best_index) BBR_UNIT 0) ∧
    (bbr_capped_rate defaultCfg env0 stC1 100 256).1 ≤
      bbr_bw_to_pacing_rate_pmodrl defaultCfg env0 stC1 (getR pmC1 pmC1.best_index) BBR_UNIT 0 ∧
    bbr_bw_to_pacing_rate_pmodrl defaultCfg env0 stC1 (getR pmC1 pmC1.best_index) BBR_UNIT 0 =
      bbr_bw_to_pacing_rate env0 (getR pmC1 pmC1.best_index) BBR_UNIT ∧
    (stC1.has_seen_rtt = true →
      (bbr_set_pacing_rate defaultCfg env0 100 256 stC1).sk_pacing_rate = stC1.sk_pacing_rate ∨
      (bbr_set_pacing_rate defaultCfg env0 100 256 stC1).sk_pacing_rate =
        (bbr_capped_rate defaultCfg env0 stC1 100 256).1) :=
  c1_pacing_cap defaultCfg env0 stC1 100 256 pmC1 rfl rfl (by decide) rfl rfl

/-! ## C10: the pacing rate never exceeds sk_max_pacing_rate -/

/-- Helper: every rate produced by the cap logic is bounded by the socket
    maximum pacing rate. -/
theorem capped_rate_le_max (cfg : Cfg) (e : Env) (s : St) (bw gain : Nat) :
    (bbr_capped_rate cfg e s bw gain).1 ≤ e.sk_max_pacing_rate := by
  rw [bbr_capped_rate]
  cases hpm : s.pm with
  | none => exact Nat.min_le_right _ _
  | some pm =>
    simp only []
    split
    · split
      · exact Nat.min_le_right _ _
      · exact Nat.min_le_right _ _
    · exact Nat.min_le_right _ _

/-- Helper: the early-RTT initialization stores a rate bounded by the socket
    maximum pacing rate. -/
theorem init_pacing_rate_le_max (e : Env) (s : St) :
    (bbr_init_pacing_rate_from_rtt e s).sk_pacing_rate ≤ e.sk_max_pacing_rate := by
  rw [bbr_init_pacing_rate_from_rtt]
  split <;> exact Nat.min_le_right _ _

/-- C10.  For every bandwidth, gain and state, the pacing rates computed by
    `bbr_bw_to_pacing_rate` and `bbr_bw_to_pacing_rate_pmodrl` are at most
    `sk_max_pacing_rate`, and `bbr_set_pacing_rate` either leaves the socket
    pacing rate untouched or stores a value at most `sk_max_pacing_rate`. -/
theorem c10_pacing_rate_le_sk_max (cfg : Cfg) (e : Env) (s : St) (bw gain nominator : Nat) :
    bbr_bw_to_pacing_rate e bw gain ≤ e.sk_max_pacing_rate ∧
    bbr_bw_to_pacing_rate_pmodrl cfg e s bw gain nominator ≤ e.sk_max_pacing_rate ∧
    ((bbr_set_pacing_rate cfg e bw gain s).sk_pacing_rate = s.sk_pacing_rate ∨
     (bbr_set_pacing_rate cfg e bw gain s).sk_pacing_rate ≤ e.sk_max_pacing_rate) := by
  refine ⟨Nat.min_le_right _ _, ?_, ?_⟩
  · rw [bbr_bw_to_pacing_rate_pmodrl]
    exact Nat.min_le_right _ _
  · rcases bbr_set_pacing_rate_sk_cases cfg e bw gain s with h | h | h
    · exact Or.inl h
    · exact Or.inr (h ▸ init_pacing_rate_le_max e s)
    · exact Or.inr (h ▸ capped_rate_le_max cfg e s bw gain)

/-! ## C2: the probe controller, once per round while the cap is active -/

/-- C2.  While `classify = 1`, `optimize_flag` is on, the cap is active and
    not probing (`upper_bound = 1`, `nominator = 0`), on a round start in
    PROBE_BW the controller increments `round_count` (and changes nothing
    else while below `probe_interval`); when the incremented count reaches
    `probe_interval` it sets `nominator = 1`, resets the gain cycle to phase
    0 (stamping `cycle_mstamp` with the delivered timestamp), records the
    current best `(B, R)` pair into `(mem_B, mem_R)`, resets `round_count`
    and `round_count_no`, and sets the mode to PROBE_BW. -/
theorem c2_probe_round (cfg : Cfg) (e : Env) (s : St) (pm : Pmodrl)
    (hc : pm.classify = 1) (ho : cfg.optimize_flag ≠ 0)
    (hu : pm.upper_bound = 1) (hn : pm.nominator = 0)
    (hr : pm.round_start = true) (hm : s.mode = BbrMode.probeBw) :
    (pm.round_count + 1 < cfg.probe_interval →
      probe_pmodrl_core cfg e s pm = (s, { pm with round_count := pm.round_count + 1 })) ∧
    (cfg.probe_interval ≤ pm.round_count + 1 →
      (probe_pmodrl_core cfg e s pm).2.nominator = 1 ∧
      (probe_pmodrl_core cfg e s pm).2.upper_bound = 1 ∧
      (probe_pmodrl_core cfg e s pm).2.mem_B = getB pm pm.best_index ∧
      (probe_pmodrl_core cfg e s pm).2.mem_R = getR pm pm.best_index ∧
      (probe_pmodrl_core cfg e s pm).2.round_count = 0 ∧
      (probe_pmodrl_core cfg e s pm).2.round_count_no = 0 ∧
      (probe_pmodrl_core cfg e s pm).1.cycle_idx = 0 ∧
      (probe_pmodrl_core cfg e s pm).1.mode = BbrMode.probeBw ∧
      (probe_pmodrl_core cfg e s pm).2.cycle_mstamp = e.tp_delivered_mstamp) := by
  have hguard : pm.classify = 1 ∧ cfg.optimize_flag ≠ 0 := ⟨hc, ho⟩
  have hnot : ¬(pm.upper_bound ≠ 1 ∨ pm.nominator ≠ 0) := by simp [hu, hn]
  constructor
  · intro hlt
    rw [probe_pmodrl_core, if_pos hguard, if_neg hnot, if_pos hr]
    simp only []
    rw [if_neg (by simpa using Nat.not_le.mpr hlt)]
  · intro hge
    rw [probe_pmodrl_core, if_pos hguard, if_neg hnot, if_pos hr]
    simp only []
    rw [if_pos (by simpa using hge)]
    simp [getB, getR]

/-- Witness for C2 at a concrete capped state one round into the period. -/
theorem c2_probe_round_witness :
    (pmC2.round_count + 1 < defaultCfg.probe_interval →
      probe_pmodrl_core defaultCfg env0 stC2 pmC2 =
        (stC2, { pmC2 with round_count := pmC2.round_count + 1 })) ∧
    (defaultCfg.probe_interval ≤ pmC2.round_count + 1 →
      (probe_pmodrl_core defaultCfg env0 stC2 pmC2).2.nominator = 1 ∧
      (probe_pmodrl_core defaultCfg env0 stC2 pmC2).2.upper_bound = 1 ∧
      (probe_pmodrl_core defaultCfg env0 stC2 pmC2).2.mem_B = getB pmC2 pmC2.best_index ∧
      (probe_pmodrl_core defaultCfg env0 stC2 pmC2).2.mem_R = getR pmC2 pmC2.best_index ∧
      (probe_pmodrl_core defaultCfg env0 stC2 pmC2).2.round_count = 0 ∧
      (probe_pmodrl_core defaultCfg env0 stC2 pmC2).2.round_count_no = 0 ∧
      (probe_pmodrl_core defaultCfg env0 stC2 pmC2).1.cycle_idx = 0 ∧
      (probe_pmodrl_core defaultCfg env0 stC2 pmC2).1.mode = BbrMode.probeBw ∧
      (probe_pmodrl_core defaultCfg env0 stC2 pmC2).2.cycle_mstamp = env0.tp_delivered_mstamp) :=
  c2_probe_round defaultCfg env0 stC2 pmC2 rfl (by decide) rfl rfl rfl rfl

/-! ## C3: committing the classification -/

/-- C3.  When `classify` is not 1 and both the high-loss flag and the
    abrupt-decrease condition hold, if the best `(B, R)` pair still equals
    the remembered `(mem_B, mem_R)` and more than `10 * min_rtt_us` has
    elapsed since `classify_time_us`, the classification tail commits
    `classify := 1`, `upper_bound := 1`, and snapshots
    `detected_time = now - bbr_start_us` and
    `detected_bytes_acked = tp->bytes_acked`; the LT-estimator reset is
    requested exactly when `reset_ltbw_flag` was still 0, and afterwards the
    flag is non-zero, so the reset fires at most once per detection epoch. -/
theorem c3_classify_commit (e : Env) (now min_rtt : Nat) (pm : Pmodrl)
    (hc : pm.classify ≠ 1)
    (hh : pm.high_loss_flag ≠ 0)
    (ha : (getR pm pm.best_index * BASED_UNIT) % 2 ^ 64 ≤
          (abrupt_decrease_thresh * pm.bef_empty_goodput) % 2 ^ 64)
    (ht0 : pm.classify_time_us ≠ 0)
    (hB : getB pm pm.best_index = pm.mem_B)
    (hR : getR pm pm.best_index = pm.mem_R)
    (hstable : (10 * min_rtt) % 2 ^ 32 < u32sub now pm.classify_time_us) :
    (classify_update e now min_rtt pm).1.classify = 1 ∧
    (classify_update e now min_rtt pm).1.upper_bound = 1 ∧
    (classify_update e now min_rtt pm).1.detected_time = u32sub now pm.bbr_start_us ∧
    (classify_update e now min_rtt pm).1.detected_bytes_acked = e.tp_bytes_acked ∧
    ((classify_update e now min_rtt pm).2 = true ↔ pm.reset_ltbw_flag = 0) ∧
    (classify_update e now min_rtt pm).1.reset_ltbw_flag ≠ 0 := by
  unfold classify_update
  simp only [getB, getR] at hB hR ha ⊢
  rw [hR] at ha
  have e64 : (2 : Nat) ^ 64 = 18446744073709551616 := by norm_num
  have e32 : (2 : Nat) ^ 32 = 4294967296 := by norm_num
  rw [e64] at ha
  rw [e32] at hstable
  by_cases hf : pm.reset_ltbw_flag = 0
  · simp [hc, hh, ha, ht0, hf, hB, hR, hstable]
  · simp [hc, hh, ha, ht0, hf, hB, hR, hstable]

/-- Witness for C3 at a concrete armed, stable state. -/
theorem c3_classify_commit_witness :
    (classify_update env0 100000 100 pmC3).1.classify = 1 ∧
    (classify_update env0 100000 100 pmC3).1.upper_bound = 1 ∧
    (classify_update env0 100000 100 pmC3).1.detected_time = u32sub 100000 pmC3.bbr_start_us ∧
    (classify_update env0 100000 100 pmC3).1.detected_bytes_acked = env0.tp_bytes_acked ∧
    ((classify_update env0 100000 100 pmC3).2 = true ↔ pmC3.reset_ltbw_flag = 0) ∧
    (classify_update env0 100000 100 pmC3).1.reset_ltbw_flag ≠ 0 :=
  c3_classify_commit env0 100000 100 pmC3 (by decide) (by decide) (by decide) (by decide)
    (by decide) (by decide) (by decide)

/-! ## C4: arming the high-loss detector (corrected) -/

/-- Helper: the R-refinement loop never touches `high_loss_flag` or
    `loss_start_time_us`. -/
theorem refine_loop_frame (dt tms dlv : Nat) (l : List (Fin 9)) (pm : Pmodrl) :
    (refine_loop dt tms dlv l pm).1.high_loss_flag = pm.high_loss_flag ∧
    (refine_loop dt tms dlv l pm).1.loss_start_time_us = pm.loss_start_time_us := by
  induction l generalizing pm with
  | nil => exact ⟨rfl, rfl⟩
  | cons i rest ih =>
    unfold refine_loop
    split
    · split
      · exact ⟨rfl, rfl⟩
      · exact ih _
    · exact ih pm

/-- C4 counterexample.  At `now = 170`, `min_rtt_us = 10`,
    `cur_delivered = 4`, `cur_lost = 1`, the claim's arming condition holds
    (`loss_start_time_us = 100 ≠ 0`, `now - loss_start_time_us = 70 =
    7 * min_rtt_us`, and the loss fraction `l/(d+l) = 1/5` is at least 20%),
    yet the detector neither sets `high_loss_flag` nor clears
    `loss_start_time_us`: the code requires `loss_start + 7*min_rtt < now`
    strictly, and on the failing time test it returns with no change at all. -/
theorem c4_counterexample :
    pmC4.high_loss_flag = 0 ∧
    pmC4.loss_start_time_us = 100 ∧
    170 - pmC4.loss_start_time_us = 7 * 10 ∧
    (u32sub 4 pmC4.before_loss_delivered + u32sub 1 pmC4.before_loss_lost) * 2 ≤
      u32sub 1 pmC4.before_loss_lost * 10 ∧
    (arm_high_loss 170 10 4 1 pmC4).1.high_loss_flag = 0 ∧
    (arm_high_loss 170 10 4 1 pmC4).1.loss_start_time_us = 100 ∧
    (arm_high_loss 170 10 4 1 pmC4).2 = false := by decide

/-- C4 amended.  When `high_loss_flag = 0`: if the timing condition
    `loss_start_time_us ≠ 0 ∧ loss_start_time_us + 7*min_rtt < now` fails
    (strict comparison in u32 arithmetic), the arming phase changes nothing;
    if it holds but the strict loss-fraction test
    `(d+l) ≠ 0 ∧ 2*(d+l) < 10*l` fails, only `loss_start_time_us` is cleared
    to 0; if both hold, `high_loss_flag` is set to 1. -/
theorem c4_arm_amended (now min_rtt cd cl : Nat) (pm : Pmodrl)
    (hh : pm.high_loss_flag = 0) :
    (¬(pm.loss_start_time_us ≠ 0 ∧ (pm.loss_start_time_us + 7 * min_rtt) % 2 ^ 32 < now) →
      arm_high_loss now min_rtt cd cl pm = (pm, false)) ∧
    ((pm.loss_start_time_us ≠ 0 ∧ (pm.loss_start_time_us + 7 * min_rtt) % 2 ^ 32 < now) →
      ¬((u32sub cd pm.before_loss_delivered + u32sub cl pm.before_loss_lost) % 2 ^ 32 ≠ 0 ∧
        ((u32sub cd pm.before_loss_delivered + u32sub cl pm.before_loss_lost) % 2 ^ 32) * 2 <
          u32sub cl pm.before_loss_lost * 10) →
      arm_high_loss now min_rtt cd cl pm = ({ pm with loss_start_time_us := 0 }, false)) ∧
    ((pm.loss_start_time_us ≠ 0 ∧ (pm.loss_start_time_us + 7 * min_rtt) % 2 ^ 32 < now) →
      ((u32sub cd pm.before_loss_delivered + u32sub cl pm.before_loss_lost) % 2 ^ 32 ≠ 0 ∧
        ((u32sub cd pm.before_loss_delivered + u32sub cl pm.before_loss_lost) % 2 ^ 32) * 2 <
          u32sub cl pm.before_loss_lost * 10) →
      (arm_high_loss now min_rtt cd cl pm).1.high_loss_flag = 1) := by
  refine ⟨?_, ?_, ?_⟩
  · intro hnt
    unfold arm_high_loss
    rw [if_pos hh, if_neg hnt]
  · intro ht hnf
    unfold arm_high_loss
    rw [if_pos hh, if_pos ht, if_neg hnf]
  · intro ht hf
    unfold arm_high_loss
    rw [if_pos hh, if_pos ht, if_pos hf]
    by_cases hs : s32lt1 (u64sub (pm.before_loss_time_us / USEC_PER_MSEC)
        (pm.bbr_start_us / USEC_PER_MSEC)) = true
    · simp only [hs, if_true, ite_true]
    · simp only [hs, if_false, ite_false, Bool.false_eq_true]
      exact (refine_loop_frame _ _ _ _ _).1

/-- Witness for C4 (amended) at the boundary input of the counterexample:
    the timing test fails, so the state is returned unchanged. -/
theorem c4_arm_amended_witness :
    arm_high_loss 170 10 4 1 pmC4 = (pmC4, false) :=
  (c4_arm_amended 170 10 4 1 pmC4 rfl).1 (by decide)

/-! ## C6: shape of the candidate grid (corrected) -/

/-- C6 counterexample.  The populated grid is strictly decreasing, not
    non-decreasing: with `before_loss_delivered = 256`, `B_arr[1] < B_arr[0]`. -/
theorem c6_counterexample : populate_B 256 1 < populate_B 256 0 := by decide

/-- Helper: u64 subtraction agrees with truncated subtraction below 2^64. -/
theorem u64sub_eq_sub (a b : Nat) (hb : b ≤ a) (ha : a < 2 ^ 64) :
    u64sub a b = a - b := by
  unfold u64sub wsub
  omega

/-- Helper: conditionally updating `R_arr[0]` never changes `B_arr`. -/
theorem ite_update_R0_B_arr (c : Prop) [Decidable c] (v : Nat) (q : Pmodrl) :
    (if c then pm_update_R0 v q else q).B_arr = q.B_arr := by
  split <;> rfl

/-- Helper: the B array after one grid shift, as a function of the old one. -/
theorem shift_step_B_arr (now cd : Nat) (pm : Pmodrl) :
    (shift_step now cd pm).B_arr = fun k : Fin 9 =>
      if k.val = 0 then (pm.B_arr 0 + u64sub (pm.B_arr 0) (pm.B_arr 1)) % 2 ^ 64
      else pm.B_arr ⟨k.val - 1, by omega⟩ := by
  simp only [shift_step, ite_update_R0_B_arr]

/-- C6 amended.  All entries of the populated grid are non-negative (they
    are unsigned) and `B_arr` is non-increasing in the index; a grid shift
    preserves the non-increasing shape (absent u64 overflow of the
    synthesized leftmost bucket). -/
theorem c6_grid_monotone_amended :
    (∀ (bld : Nat) (i : Fin 9), 0 ≤ populate_B bld i) ∧
    (∀ bld : Nat, B_antitone (populate_B bld)) ∧
    (∀ (now cd : Nat) (pm : Pmodrl), B_antitone pm.B_arr → (∀ i, pm.B_arr i < 2 ^ 64) →
      pm.B_arr 0 + (pm.B_arr 0 - pm.B_arr 1) < 2 ^ 64 →
      B_antitone (shift_step now cd pm).B_arr) := by
  refine ⟨fun bld i => Nat.zero_le _, ?_, ?_⟩
  · intro bld i j h
    fin_cases i <;> fin_cases j <;>
      first
      | exact absurd h (by decide)
      | (simp [populate_B, percent_arr, percent_vals, BW_UNIT, BW_SCALE, BASED_UNIT,
          BASED_SCALE, abrupt_decrease_thresh, Nat.shiftRight_eq_div_pow] <;> omega)
  · intro now cd pm hmono hbound hnoov
    have h01 : pm.B_arr 1 ≤ pm.B_arr 0 := hmono 0 1 (by decide)
    have hd : u64sub (pm.B_arr 0) (pm.B_arr 1) = pm.B_arr 0 - pm.B_arr 1 :=
      u64sub_eq_sub _ _ h01 (hbound 0)
    have hmod : (pm.B_arr 0 + u64sub (pm.B_arr 0) (pm.B_arr 1)) % 2 ^ 64 =
        pm.B_arr 0 + (pm.B_arr 0 - pm.B_arr 1) := by
      rw [hd]
      exact Nat.mod_eq_of_lt hnoov
    intro i j hij
    rw [shift_step_B_arr]
    simp only []
    have hij' : i.val ≤ j.val := hij
    by_cases hj : j.val = 0
    · have hi : i.val = 0 := by omega
      rw [if_pos hi, if_pos hj]
    · rw [if_neg hj]
      by_cases hi : i.val = 0
      · rw [if_pos hi, hmod]
        calc pm.B_arr ⟨j.val - 1, by omega⟩ ≤ pm.B_arr 0 := by
              apply hmono
              exact Fin.mk_le_mk.mpr (Nat.zero_le _)
          _ ≤ pm.B_arr 0 + (pm.B_arr 0 - pm.B_arr 1) := Nat.le_add_right _ _
      · rw [if_neg hi]
        apply hmono
        exact Fin.mk_le_mk.mpr (by omega)

/-- Witness for C6 (amended): the populated grid at `bld = 7` is
    non-increasing at indices 0,1 and stays so across one shift. -/
theorem c6_grid_monotone_amended_witness :
    populate_B 7 1 ≤ populate_B 7 0 ∧
    (shift_step 0 0 pmC6).B_arr 1 ≤ (shift_step 0 0 pmC6).B_arr 0 :=
  ⟨c6_grid_monotone_amended.2.1 7 0 1 (by decide),
   c6_grid_monotone_amended.2.2 0 0 pmC6 (by decide) (by decide) (by decide) 0 1 (by decide)⟩

/-! ## C7: classify transitions (corrected) -/

/-- C7 counterexample.  From a classified state (`classify = 1`), one
    `bbr_main` invocation with `exclude_rwnd` set and a receive-window
    limited sample drives `classify` to the reset reason code 5 via
    `reset_pmodrl(sk, 5, 6)` - a transition outside the claimed set
    {0 to 1, 0 to 2, 1 to 2}. -/
theorem c7_counterexample :
    stC7.pm.map Pmodrl.classify = some 1 ∧
    (bbr_main cfgC7 envC7 nullSample stC7).map (fun t => t.pm.map Pmodrl.classify) =
      some (some 5) ∧
    ¬ specClassifyTransition 1 5 := by
  refine ⟨rfl, ?_, by decide⟩
  rfl

/-- C7 amended.  The classification tail only performs the transitions
    `classify to classify` (no change), `to 1` (commit) and `to 2`
    (demotion); `reset_pmodrl` maps `classify = 1` to its `res1` argument
    (the source invokes it with the non-zero reason codes 5, 7, 9) and never
    maps a non-zero `classify` to 0 when its reason arguments are non-zero.
    In particular, once `classify = 1` it never returns to 0. -/
theorem c7_classify_transitions_amended :
    (∀ (e : Env) (now min_rtt : Nat) (pm : Pmodrl),
      (classify_update e now min_rtt pm).1.classify = pm.classify ∨
      (classify_update e now min_rtt pm).1.classify = 1 ∨
      (classify_update e now min_rtt pm).1.classify = 2) ∧
    (∀ (e : Env) (now min_rtt : Nat) (pm : Pmodrl), pm.classify = 1 →
      (classify_update e now min_rtt pm).1.classify = 1 ∨
      (classify_update e now min_rtt pm).1.classify = 2) ∧
    (∀ (cfg : Cfg) (e : Env) (r1 r2 : Nat) (pm : Pmodrl), pm.classify = 1 →
      (reset_pmodrl cfg e r1 r2 pm).classify = r1) ∧
    (∀ (cfg : Cfg) (e : Env) (r1 r2 : Nat) (pm : Pmodrl),
      pm.classify ≠ 0 → r1 ≠ 0 → r2 ≠ 0 → (reset_pmodrl cfg e r1 r2 pm).classify ≠ 0) := by
  have hcases : ∀ (e : Env) (now min_rtt : Nat) (pm : Pmodrl),
      (classify_update e now min_rtt pm).1.classify = pm.classify ∨
      (classify_update e now min_rtt pm).1.classify = 1 ∨
      (classify_update e now min_rtt pm).1.classify = 2 := by
    intro e now min_rtt pm
    simp only [classify_update]
    repeat' split
    all_goals simp
  refine ⟨hcases, ?_, ?_, ?_⟩
  · intro e now min_rtt pm h1
    rcases hcases e now min_rtt pm with h | h | h
    · exact Or.inl (h.trans h1)
    · exact Or.inl h
    · exact Or.inr h
  · intro cfg e r1 r2 pm h1
    unfold reset_pmodrl
    simp [h1]
  · intro cfg e r1 r2 pm h0 hr1 hr2
    unfold reset_pmodrl
    by_cases h1 : pm.classify = 1
    · simp only [h1, if_pos rfl]
      simpa using hr1
    · by_cases h2 : pm.classify = 2
      · simp [h1, h2]
        exact hr2
      · simp only [h1, h2, h0, if_false, ite_false]
        first
        | exact h0
        | simp [h1, h2, h0]

/-- Witness for C7 (amended) at a concrete classified block and the reason
    codes the source uses. -/
theorem c7_classify_transitions_amended_witness :
    ((classify_update env0 0 0 pmC1).1.classify = 1 ∨
     (classify_update env0 0 0 pmC1).1.classify = 2) ∧
    (reset_pmodrl defaultCfg env0 5 6 pmC1).classify = 5 ∧
    (reset_pmodrl defaultCfg env0 5 6 pmC1).classify ≠ 0 :=
  ⟨c7_classify_transitions_amended.2.1 env0 0 0 pmC1 rfl,
   c7_classify_transitions_amended.2.2.1 defaultCfg env0 5 6 pmC1 rfl,
   c7_classify_transitions_amended.2.2.2 defaultCfg env0 5 6 pmC1 (by decide) (by decide)
     (by decide)⟩

/-! ## C5: behaviour when the detector allocation failed (code bug) -/

/-- C5.  With `pmodrl == NULL` (detector allocation failed at init), the
    claim says every operation still executes as plain BBR behind
    present/absent guards.  The code instead dereferences the NULL pointer:
    `bbr_cwnd_event` writes `bbr->pmodrl->bbr_start_us` unconditionally on a
    TX_START event while app-limited (src line 514), and both
    `bbr_is_next_cycle_phase` (line 739) and `bbr_advance_cycle_phase`
    (line 776) access `bbr->pmodrl->cycle_mstamp` unconditionally.  All
    three evaluate to a crash (`none`) in the model. -/
theorem c5_null_pmodrl_crash :
    bbr_cwnd_event_tx_start defaultCfg env0 stC5 = none ∧
    bbr_is_next_cycle_phase env0 nullSample stC5 = none ∧
    bbr_advance_cycle_phase env0 stC5 = none := by
  refine ⟨rfl, rfl, rfl⟩

/-! ## C8: PROBE_RTT implies cwnd at most 4 and unit gains

Frame lemmas tracking mode, gains and cwnd through the stages of the
per-sample handler after the model update. -/

/-- Helper: the LT reset leaves mode, gains and cwnd untouched. -/
theorem reset_lt_frame (e : Env) (s : St) :
    (bbr_reset_lt_bw_sampling e s).mode = s.mode ∧
    (bbr_reset_lt_bw_sampling e s).pacing_gain = s.pacing_gain ∧
    (bbr_reset_lt_bw_sampling e s).cwnd_gain = s.cwnd_gain ∧
    (bbr_reset_lt_bw_sampling e s).snd_cwnd = s.snd_cwnd ∧
    (bbr_reset_lt_bw_sampling e s).pm = s.pm :=
  ⟨rfl, rfl, rfl, rfl, rfl⟩

/-- Helper: the core-state output of `estimation_classify` is either the
    input state or the input state after the LT reset. -/
theorem estimation_classify_core_fst (cfg : Cfg) (e : Env) (s : St) (pm : Pmodrl) :
    (estimation_classify_core cfg e s pm).1 = s ∨
    (estimation_classify_core cfg e s pm).1 = bbr_reset_lt_bw_sampling e s := by
  simp only [estimation_classify_core]
  repeat' split
  all_goals first | (left; rfl) | (right; rfl)

/-- Helper: `estimation_classify` leaves mode, gains and cwnd untouched. -/
theorem estimation_classify_core_frame (cfg : Cfg) (e : Env) (s : St) (pm : Pmodrl) :
    (estimation_classify_core cfg e s pm).1.mode = s.mode ∧
    (estimation_classify_core cfg e s pm).1.pacing_gain = s.pacing_gain ∧
    (estimation_classify_core cfg e s pm).1.cwnd_gain = s.cwnd_gain ∧
    (estimation_classify_core cfg e s pm).1.snd_cwnd = s.snd_cwnd := by
  rcases estimation_classify_core_fst cfg e s pm with h | h <;> rw [h]
  · exact ⟨rfl, rfl, rfl, rfl⟩
  · exact ⟨(reset_lt_frame e s).1, (reset_lt_frame e s).2.1, (reset_lt_frame e s).2.2.1,
      (reset_lt_frame e s).2.2.2.1⟩

/-- Helper: the core-state output of `probe_pmodrl` is either the input state
    or the input state with the gain cycle reset and mode PROBE_BW. -/
theorem probe_pmodrl_core_fst (cfg : Cfg) (e : Env) (t : St) (q : Pmodrl) :
    (probe_pmodrl_core cfg e t q).1 = t ∨
    (probe_pmodrl_core cfg e t q).1 = { t with cycle_idx := 0, mode := BbrMode.probeBw } := by
  simp only [probe_pmodrl_core]
  repeat' split
  all_goals first | (left; rfl) | (right; rfl)

/-- Helper: `probe_pmodrl` preserves gains and cwnd, and only ever moves the
    mode to PROBE_BW. -/
theorem probe_pmodrl_core_frame (cfg : Cfg) (e : Env) (t : St) (q : Pmodrl) :
    ((probe_pmodrl_core cfg e t q).1.mode = t.mode ∨
     (probe_pmodrl_core cfg e t q).1.mode = BbrMode.probeBw) ∧
    (probe_pmodrl_core cfg e t q).1.pacing_gain = t.pacing_gain ∧
    (probe_pmodrl_core cfg e t q).1.cwnd_gain = t.cwnd_gain ∧
    (probe_pmodrl_core cfg e t q).1.snd_cwnd = t.snd_cwnd := by
  rcases probe_pmodrl_core_fst cfg e t q with h | h <;> rw [h]
  · exact ⟨Or.inl rfl, rfl, rfl, rfl⟩
  · exact ⟨Or.inr rfl, rfl, rfl, rfl⟩

/-- Helper: the detector bookkeeping before `probe_pmodrl` leaves mode,
    gains and cwnd untouched. -/
theorem main_pm_mid_frame (cfg : Cfg) (e : Env) (rs : RateSample) (s : St) (pm : Pmodrl) :
    (main_pm_mid cfg e rs s pm).1.mode = s.mode ∧
    (main_pm_mid cfg e rs s pm).1.pacing_gain = s.pacing_gain ∧
    (main_pm_mid cfg e rs s pm).1.cwnd_gain = s.cwnd_gain ∧
    (main_pm_mid cfg e rs s pm).1.snd_cwnd = s.snd_cwnd := by
  simp only [main_pm_mid]
  repeat' split
  all_goals
    first
    | exact ⟨rfl, rfl, rfl, rfl⟩
    | exact estimation_classify_core_frame cfg e s _

/-- Helper: the detector section of `bbr_main` preserves gains and cwnd and
    only ever moves the mode to PROBE_BW. -/
theorem main_pm_block_frame (cfg : Cfg) (e : Env) (rs : RateSample) (s : St) (pm : Pmodrl) :
    ((main_pm_block cfg e rs s pm).mode = s.mode ∨
     (main_pm_block cfg e rs s pm).mode = BbrMode.probeBw) ∧
    (main_pm_block cfg e rs s pm).pacing_gain = s.pacing_gain ∧
    (main_pm_block cfg e rs s pm).cwnd_gain = s.cwnd_gain ∧
    (main_pm_block cfg e rs s pm).snd_cwnd = s.snd_cwnd := by
  have hmid := main_pm_mid_frame cfg e rs s pm
  have hpr := probe_pmodrl_core_frame cfg e (main_pm_mid cfg e rs s pm).1
    (main_pm_mid cfg e rs s pm).2
  simp only [main_pm_block]
  refine ⟨?_, ?_, ?_, ?_⟩
  · rcases hpr.1 with h | h
    · exact Or.inl (by simpa [h] using hmid.1)
    · exact Or.inr (by simpa using h)
  · simpa [hpr.2.1] using hmid.2.1
  · simpa [hpr.2.2.1] using hmid.2.2.1
  · simpa [hpr.2.2.2] using hmid.2.2.2

/-- Helper: the detector stage of the post-model handler preserves gains and
    cwnd and only ever moves the mode to PROBE_BW. -/
theorem post_pm_stage_frame (cfg : Cfg) (e : Env) (rs : RateSample) (s : St) :
    ((post_pm_stage cfg e rs s).mode = s.mode ∨
     (post_pm_stage cfg e rs s).mode = BbrMode.probeBw) ∧
    (post_pm_stage cfg e rs s).pacing_gain = s.pacing_gain ∧
    (post_pm_stage cfg e rs s).cwnd_gain = s.cwnd_gain ∧
    (post_pm_stage cfg e rs s).snd_cwnd = s.snd_cwnd := by
  rcases hpm : s.pm with _ | pm
  · simp [post_pm_stage, hpm]
  · simp only [post_pm_stage, hpm]
    exact main_pm_block_frame cfg e rs s pm

/-- Helper: the early-RTT initialization leaves mode, gains and cwnd
    untouched. -/
theorem init_pacing_frame (e : Env) (s : St) :
    (bbr_init_pacing_rate_from_rtt e s).mode = s.mode ∧
    (bbr_init_pacing_rate_from_rtt e s).pacing_gain = s.pacing_gain ∧
    (bbr_init_pacing_rate_from_rtt e s).cwnd_gain = s.cwnd_gain ∧
    (bbr_init_pacing_rate_from_rtt e s).snd_cwnd = s.snd_cwnd := by
  simp only [bbr_init_pacing_rate_from_rtt]
  repeat' split
  all_goals exact ⟨rfl, rfl, rfl, rfl⟩

/-- Helper: the pacing store stage leaves mode, gains and cwnd untouched. -/
theorem pacing_store2_frame (cfg : Cfg) (rate : Nat) (flag : Bool) (t : St) :
    (pacing_store2 cfg rate flag t).mode = t.mode ∧
    (pacing_store2 cfg rate flag t).pacing_gain = t.pacing_gain ∧
    (pacing_store2 cfg rate flag t).cwnd_gain = t.cwnd_gain ∧
    (pacing_store2 cfg rate flag t).snd_cwnd = t.snd_cwnd := by
  simp only [pacing_store2]
  repeat' split
  all_goals exact ⟨rfl, rfl, rfl, rfl⟩

/-- Helper: `bbr_set_pacing_rate` leaves mode, gains and cwnd untouched. -/
theorem bbr_set_pacing_rate_frame (cfg : Cfg) (e : Env) (bw gain : Nat) (s : St) :
    (bbr_set_pacing_rate cfg e bw gain s).mode = s.mode ∧
    (bbr_set_pacing_rate cfg e bw gain s).pacing_gain = s.pacing_gain ∧
    (bbr_set_pacing_rate cfg e bw gain s).cwnd_gain = s.cwnd_gain ∧
    (bbr_set_pacing_rate cfg e bw gain s).snd_cwnd = s.snd_cwnd := by
  simp only [bbr_set_pacing_rate]
  split
  · refine ⟨?_, ?_, ?_, ?_⟩ <;>
      simp [pacing_store2_frame, init_pacing_frame,
        (pacing_store2_frame cfg _ _ (bbr_init_pacing_rate_from_rtt e s)).1,
        (pacing_store2_frame cfg _ _ (bbr_init_pacing_rate_from_rtt e s)).2.1,
        (pacing_store2_frame cfg _ _ (bbr_init_pacing_rate_from_rtt e s)).2.2.1,
        (pacing_store2_frame cfg _ _ (bbr_init_pacing_rate_from_rtt e s)).2.2.2,
        (init_pacing_frame e s).1, (init_pacing_frame e s).2.1,
        (init_pacing_frame e s).2.2.1, (init_pacing_frame e s).2.2.2]
  · exact pacing_store2_frame cfg _ _ s

/-- Helper: the recovery/restore helper leaves mode and gains untouched. -/
theorem rcr_frame (e : Env) (rs : RateSample) (acked : Nat) (s : St) :
    (bbr_set_cwnd_to_recover_or_restore e rs acked s).1.mode = s.mode ∧
    (bbr_set_cwnd_to_recover_or_restore e rs acked s).1.pacing_gain = s.pacing_gain ∧
    (bbr_set_cwnd_to_recover_or_restore e rs acked s).1.cwnd_gain = s.cwnd_gain := by
  simp only [bbr_set_cwnd_to_recover_or_restore]
  repeat' split
  all_goals exact ⟨rfl, rfl, rfl⟩

/-- Helper: `bbr_set_cwnd` leaves mode and gains untouched. -/
theorem bbr_set_cwnd_frame (e : Env) (rs : RateSample) (acked bw gain : Nat) (s : St) :
    (bbr_set_cwnd e rs acked bw gain s).mode = s.mode ∧
    (bbr_set_cwnd e rs acked bw gain s).pacing_gain = s.pacing_gain ∧
    (bbr_set_cwnd e rs acked bw gain s).cwnd_gain = s.cwnd_gain := by
  have h := rcr_frame e rs acked s
  simp only [bbr_set_cwnd]
  repeat' split
  all_goals first | exact ⟨rfl, rfl, rfl⟩ | exact ⟨h.1, h.2.1, h.2.2⟩

/-- Helper: in PROBE_RTT, `bbr_set_cwnd` clamps the congestion window to the
    minimum target. -/
theorem bbr_set_cwnd_probe_rtt_le (e : Env) (rs : RateSample) (acked bw gain : Nat) (s : St)
    (h : s.mode = BbrMode.probeRtt) :
    (bbr_set_cwnd e rs acked bw gain s).snd_cwnd ≤ bbr_cwnd_min_target := by
  have hr := (rcr_frame e rs acked s).1
  simp only [bbr_set_cwnd]
  repeat' split
  all_goals first
    | exact Nat.min_le_right _ _
    | simp_all

/-- Helper: the tail stage leaves mode, gains and cwnd untouched. -/
theorem post_tail_stage_frame (cfg : Cfg) (e : Env) (rs : RateSample) (s : St) :
    (post_tail_stage cfg e rs s).mode = s.mode ∧
    (post_tail_stage cfg e rs s).pacing_gain = s.pacing_gain ∧
    (post_tail_stage cfg e rs s).cwnd_gain = s.cwnd_gain ∧
    (post_tail_stage cfg e rs s).snd_cwnd = s.snd_cwnd := by
  rcases hpm : s.pm with _ | pm <;> simp only [post_tail_stage, hpm] <;>
    exact ⟨by trivial, by trivial, by trivial, by trivial⟩

/-- Helper: `bbr_update_gains` preserves mode and cwnd. -/
theorem bbr_update_gains_frame (s : St) :
    (bbr_update_gains s).mode = s.mode ∧ (bbr_update_gains s).snd_cwnd = s.snd_cwnd := by
  rcases hm : s.mode <;> simp only [bbr_update_gains, hm] <;> exact ⟨by trivial, by trivial⟩

/-- Helper: in PROBE_RTT, `bbr_update_gains` sets both gains to 1.0. -/
theorem bbr_update_gains_probe_rtt (s : St) (h : s.mode = BbrMode.probeRtt) :
    (bbr_update_gains s).pacing_gain = BBR_UNIT ∧
    (bbr_update_gains s).cwnd_gain = BBR_UNIT := by
  simp [bbr_update_gains, h]

/-- Helper: a successful model update factors through `bbr_update_gains`. -/
theorem bbr_update_model_eq_gains (e : Env) (rs : RateSample) (s t : St)
    (h : bbr_update_model e rs s = some t) : ∃ u, t = bbr_update_gains u := by
  simp only [bbr_update_model, Option.bind_eq_some, Option.map_eq_some'] at h
  obtain ⟨a, ha, b, hb, c, hc, d, hd, ht⟩ := h
  exact ⟨d, ht.symm⟩

/-- Helper: a successful `bbr_main` run factors through `bbr_update_model`
    and the pure post-model stage. -/
theorem bbr_main_eq_post (cfg : Cfg) (e : Env) (rs : RateSample) (s t : St)
    (h : bbr_main cfg e rs s = some t) :
    ∃ s1, bbr_update_model e rs s = some s1 ∧ t = bbr_main_post cfg e rs s1 := by
  simp only [bbr_main, Option.map_eq_some'] at h
  obtain ⟨s1, hs1, ht⟩ := h
  exact ⟨s1, hs1, ht.symm⟩

/-- Helper: if the post-model stage ends in PROBE_RTT then the model update
    already ended in PROBE_RTT, the final cwnd is clamped to the minimum
    target, and the gains pass through unchanged. -/
theorem bbr_main_post_probe_rtt (cfg : Cfg) (e : Env) (rs : RateSample) (s1 : St)
    (h : (bbr_main_post cfg e rs s1).mode = BbrMode.probeRtt) :
    s1.mode = BbrMode.probeRtt ∧
    (bbr_main_post cfg e rs s1).snd_cwnd ≤ bbr_cwnd_min_target ∧
    (bbr_main_post cfg e rs s1).pacing_gain = s1.pacing_gain ∧
    (bbr_main_post cfg e rs s1).cwnd_gain = s1.cwnd_gain := by
  have hA := post_pm_stage_frame cfg e rs s1
  have hB := bbr_set_pacing_rate_frame cfg e (bbr_bw (post_pm_stage cfg e rs s1))
    (post_pm_stage cfg e rs s1).pacing_gain (post_pm_stage cfg e rs s1)
  have hC := bbr_set_cwnd_frame e rs rs.acked_sacked (bbr_bw (post_pm_stage cfg e rs s1))
    (bbr_set_pacing_rate cfg e (bbr_bw (post_pm_stage cfg e rs s1))
      (post_pm_stage cfg e rs s1).pacing_gain (post_pm_stage cfg e rs s1)).cwnd_gain
    (bbr_set_pacing_rate cfg e (bbr_bw (post_pm_stage cfg e rs s1))
      (post_pm_stage cfg e rs s1).pacing_gain (post_pm_stage cfg e rs s1))
  have hD := post_tail_stage_frame cfg e rs
    (bbr_set_cwnd e rs rs.acked_sacked (bbr_bw (post_pm_stage cfg e rs s1))
      (bbr_set_pacing_rate cfg e (bbr_bw (post_pm_stage cfg e rs s1))
        (post_pm_stage cfg e rs s1).pacing_gain (post_pm_stage cfg e rs s1)).cwnd_gain
      (bbr_set_pacing_rate cfg e (bbr_bw (post_pm_stage cfg e rs s1))
        (post_pm_stage cfg e rs s1).pacing_gain (post_pm_stage cfg e rs s1)))
  simp only [bbr_main_post] at h ⊢
  have hmodeC : (bbr_set_cwnd e rs rs.acked_sacked (bbr_bw (post_pm_stage cfg e rs s1))
      (bbr_set_pacing_rate cfg e (bbr_bw (post_pm_stage cfg e rs s1))
        (post_pm_stage cfg e rs s1).pacing_gain (post_pm_stage cfg e rs s1)).cwnd_gain
      (bbr_set_pacing_rate cfg e (bbr_bw (post_pm_stage cfg e rs s1))
        (post_pm_stage cfg e rs s1).pacing_gain
        (post_pm_stage cfg e rs s1))).mode = BbrMode.probeRtt := by
    rw [← hD.1]
    exact h
  have hmodeB : (bbr_set_pacing_rate cfg e (bbr_bw (post_pm_stage cfg e rs s1))
      (post_pm_stage cfg e rs s1).pacing_gain
      (post_pm_stage cfg e rs s1)).mode = BbrMode.probeRtt := by
    rw [← hC.1]
    exact hmodeC
  have hmodeA : (post_pm_stage cfg e rs s1).mode = BbrMode.probeRtt := by
    rw [← hB.1]
    exact hmodeB
  have hmode1 : s1.mode = BbrMode.probeRtt := by
    rcases hA.1 with hx | hx
    · rw [← hx]; exact hmodeA
    · rw [hx] at hmodeA; cases hmodeA
  refine ⟨hmode1, ?_, ?_, ?_⟩
  · rw [hD.2.2.2]
    exact bbr_set_cwnd_probe_rtt_le _ _ _ _ _ _ hmodeB
  · rw [hD.2.1, hC.2.1, hB.2.1, hA.2.1]
  · rw [hD.2.2.1, hC.2.2, hB.2.2.1, hA.2.2.1]

/-- C8.  Whenever the per-sample handler `bbr_main` completes with the state
    machine in PROBE_RTT, the congestion window is at most
    `bbr_cwnd_min_target = 4` and both `pacing_gain` and `cwnd_gain` equal
    `BBR_UNIT` (gain 1.0). -/
theorem c8_probe_rtt_cwnd_gains (cfg : Cfg) (e : Env) (rs : RateSample) (s t : St)
    (hmain : bbr_main cfg e rs s = some t) (hmode : t.mode = BbrMode.probeRtt) :
    t.snd_cwnd ≤ bbr_cwnd_min_target ∧
    t.pacing_gain = BBR_UNIT ∧ t.cwnd_gain = BBR_UNIT := by
  obtain ⟨s1, hs1, ht⟩ := bbr_main_eq_post cfg e rs s t hmain
  obtain ⟨u, hu⟩ := bbr_update_model_eq_gains e rs s s1 hs1
  subst ht
  have hpost := bbr_main_post_probe_rtt cfg e rs s1 hmode
  have hugains := bbr_update_gains_probe_rtt u (by
    have := (bbr_update_gains_frame u).1
    rw [hu] at hpost
    rw [← hu] at hpost
    have h1 : s1.mode = BbrMode.probeRtt := hpost.1
    rw [hu] at h1
    rw [this] at h1
    exact h1)
  refine ⟨hpost.2.1, ?_, ?_⟩
  · rw [hpost.2.2.1, hu, hugains.1]
  · rw [hpost.2.2.2, hu, hugains.2]

/-- Witness for C8: from the baseline state placed in PROBE_RTT, one
    `bbr_main` step on the null sample stays in PROBE_RTT with the
    congestion window clamped to the minimum target and both gains 1.0. -/
theorem c8_probe_rtt_cwnd_gains_witness :
    bbr_main defaultCfg env0 nullSample st8 =
      some ((bbr_main defaultCfg env0 nullSample st8).getD st0) ∧
    ((bbr_main defaultCfg env0 nullSample st8).getD st0).mode = BbrMode.probeRtt ∧
    (((bbr_main defaultCfg env0 nullSample st8).getD st0).snd_cwnd ≤ bbr_cwnd_min_target ∧
     ((bbr_main defaultCfg env0 nullSample st8).getD st0).pacing_gain = BBR_UNIT ∧
     ((bbr_main defaultCfg env0 nullSample st8).getD st0).cwnd_gain = BBR_UNIT) :=
  ⟨rfl, rfl,
   c8_probe_rtt_cwnd_gains defaultCfg env0 nullSample st8
     ((bbr_main defaultCfg env0 nullSample st8).getD st0) rfl rfl⟩

/-! ## C9: the null rate sample (corrected) -/

/-- C9 counterexample.  Feeding the per-sample handler the null sample
    (`interval_us = 0`) does NOT leave the per-connection state unchanged:
    the detector's `store_interval` counter advances 0, 1, 2 across two
    invocations, so the state after one step differs from the state before. -/
theorem c9_counterexample :
    st0.pm.map Pmodrl.store_interval = some 0 ∧
    bbr_main defaultCfg env0 nullSample st0 = some st9a ∧
    st9a.pm.map Pmodrl.store_interval = some 1 ∧
    ((bbr_main defaultCfg env0 nullSample st9a).map
      (fun (t : St) => t.pm.map Pmodrl.store_interval)) = some (some 2) ∧
    bbr_main defaultCfg env0 nullSample st0 ≠ some st0 := by
  refine ⟨rfl, rfl, rfl, rfl, ?_⟩
  intro h
  have h1 : ((some st9a).map (fun (t : St) => t.pm.map Pmodrl.store_interval)) =
      some (some (1 : Nat)) := rfl
  rw [show some st9a = bbr_main defaultCfg env0 nullSample st0 from rfl, h] at h1
  exact absurd h1 (by decide)

/-- C9 amended.  What the null sample does leave unchanged is the path
    model and the state machine: on an invalid sample (`delivered < 0` or
    `interval_us <= 0`) `bbr_update_bw` returns at its early-out, having
    only cleared `round_start`, so no model update takes place; the
    state-change made by the full handler lies in the detector bookkeeping
    (and pacing/cwnd recomputation), not in the bandwidth model. -/
theorem c9_null_sample_amended (e : Env) (rs : RateSample) (s : St)
    (h : rs.delivered < 0 ∨ rs.interval_us ≤ 0) :
    bbr_update_bw e rs s = some { s with round_start := false } := by
  have hc : (rs.delivered < 0 ∨ rs.interval_us ≤ 0) = True := eq_true h
  simp only [bbr_update_bw, hc, if_true]

/-- Witness for C9 (amended) at the null sample and baseline state. -/
theorem c9_null_sample_amended_witness :
    bbr_update_bw env0 nullSample st0 = some { st0 with round_start := false } :=
  c9_null_sample_amended env0 nullSample st0 (Or.inr (by decide))

end RTcp
